import Mathlib

/-!
# Tracing a page-templating workflow

A shallow embedding of the three variants of `PrepareContainer` and `RenderPage`
(`example-api-0.go`, untraced; `example-api-2.go`, with spans and failure recording;
`example-api-4.go`, with span attributes as well).

Every Go function becomes a function `State σ → result × State σ`: the state carries the
state of the external collaborators, the span store of the tracer, the log of calls made
to the collaborators and the lines written to the logger. A Go `(value, error)` result is
an `Except Failure value`; a deferred `span.End()` runs after the body has produced its
return value.
-/

namespace TracingIsBetter

/-! ## Data model -/

/-- A Go `error`: a failure description. -/
structure Failure where
  message : String
deriving DecidableEq, Repr

/-- The Go type `Source`; only `source.Name` is used. -/
structure Source where
  Name : String
deriving DecidableEq, Repr

/-- The Go field `container.PageSlugs`; only `FAQ` is used. -/
structure PageSlugs where
  FAQ : String
deriving DecidableEq, Repr

/-- The Go type `ContainerContext`. -/
structure ContainerContext where
  PageSlugs : PageSlugs
deriving DecidableEq, Repr

/-- What `FetchAndFillTemplate` returns and `ConfigureFromTemplate` consumes. -/
structure Template where
  content : String
deriving DecidableEq, Repr

/-- What `ConfigureFromTemplate` and `RenderPage` return: the code reads `page.Locales`
and `homePage.ID`. -/
structure Page where
  ID : String
  Locales : List String
deriving DecidableEq, Repr

/-- The two values of `StatusResult.Status` the code uses. -/
inductive Status where
  | StatusDryRun
  | StatusComplete
deriving DecidableEq, Repr

/-- The Go type `StatusResult`. -/
structure StatusResult where
  Status : Status
deriving DecidableEq, Repr

/-- A span handle: the index of the span in the tracer's store. -/
abbrev SpanId := Nat

/-- The Go `context.Context`, as far as tracing is concerned: the active scope. -/
structure Context where
  span : Option SpanId
deriving DecidableEq, Repr

/-- An attribute value: a scalar or a sequence of scalars. -/
inductive Value where
  | str (s : String)
  | bool (b : Bool)
  | strs (l : List String)
deriving DecidableEq, Repr

/-- The terminal status of a span. -/
inductive SpanStatus where
  | unset
  | ok
  | error (message : String)
deriving DecidableEq, Repr

/-- One span of the tracer's store. `ends` counts the `span.End()` calls made on it. -/
structure SpanRecord where
  name : String
  parent : Option SpanId
  attrs : List (String × Value)
  status : SpanStatus
  ends : Nat
deriving DecidableEq, Repr

/-- A call made to one of the wrapped collaborators, with the arguments it received. -/
inductive Call where
  | FetchAndFillTemplate (ctx : Context) (source : Source) (container : ContainerContext)
      (locales : List String)
  | ConfigureFromTemplate (ctx : Context) (container : ContainerContext) (template : Template)
      (locales : List String)
  | MarkReadyForUsage (ctx : Context) (container : ContainerContext) (templateIds : List String)
deriving DecidableEq, Repr

/-- The level of a log line. -/
inductive Level where
  | info
  | warn
deriving DecidableEq, Repr

/-- A line written by `logger.Info` or `logger.Warn`, with its key/value pairs. -/
structure LogLine where
  level : Level
  message : String
  fields : List (String × Value)
deriving DecidableEq, Repr

/-- The package-level identifiers the three files use and do not define: the sources `home`
and `faq`, the identifier `required` read by `RenderPage` of `example-api-4.go`, and the three
collaborators, which act on their own state `σ` and may fail. -/
structure Env (σ : Type) where
  home : Source
  faq : Source
  required : Bool
  FetchAndFillTemplate : Context → Source → ContainerContext → List String → σ →
    Except Failure Template × σ
  ConfigureFromTemplate : Context → ContainerContext → Template → List String → σ →
    Except Failure Page × σ
  MarkReadyForUsage : Context → ContainerContext → List String → σ → Option Failure × σ

/-- Everything a run can change or leave behind. -/
structure State (σ : Type) where
  ext : σ
  spans : List SpanRecord
  calls : List Call
  logs : List LogLine

/-! ## The collaborators, the logger and `fmt` -/

/-- The call `FetchAndFillTemplate(ctx, source, container, locales)`. -/
def FetchAndFillTemplate {σ : Type} (env : Env σ) (ctx : Context) (source : Source)
    (container : ContainerContext) (locales : List String) (w : State σ) :
    Except Failure Template × State σ :=
  let r := env.FetchAndFillTemplate ctx source container locales w.ext
  (r.1, { w with ext := r.2,
                 calls := w.calls ++ [Call.FetchAndFillTemplate ctx source container locales] })

/-- The call `ConfigureFromTemplate(ctx, container, template, locales)`. -/
def ConfigureFromTemplate {σ : Type} (env : Env σ) (ctx : Context) (container : ContainerContext)
    (template : Template) (locales : List String) (w : State σ) :
    Except Failure Page × State σ :=
  let r := env.ConfigureFromTemplate ctx container template locales w.ext
  (r.1, { w with ext := r.2,
                 calls := w.calls ++ [Call.ConfigureFromTemplate ctx container template locales] })

/-- The call `MarkReadyForUsage(ctx, container, templateIds)`; `none` is a nil error. -/
def MarkReadyForUsage {σ : Type} (env : Env σ) (ctx : Context) (container : ContainerContext)
    (templateIds : List String) (w : State σ) : Option Failure × State σ :=
  let r := env.MarkReadyForUsage ctx container templateIds w.ext
  (r.1, { w with ext := r.2,
                 calls := w.calls ++ [Call.MarkReadyForUsage ctx container templateIds] })

/-- The call `logger.Info(message, key, value, ...)`. -/
def logger.Info {σ : Type} (message : String) (fields : List (String × Value)) (w : State σ) :
    State σ :=
  { w with logs := w.logs ++ [⟨Level.info, message, fields⟩] }

/-- The call `logger.Warn(message, key, value, ...)`. -/
def logger.Warn {σ : Type} (message : String) (fields : List (String × Value)) (w : State σ) :
    State σ :=
  { w with logs := w.logs ++ [⟨Level.warn, message, fields⟩] }

/-- The call `fmt.Errorf(message)`: the failure that carries the message. Go reads the message
as a format string; it is kept as it is here, which is what Go does for a message without a
`%` verb. Only whether a call fails, not the text of the failure, is used below. -/
def fmt.Errorf (message : String) : Failure := ⟨message⟩

/-- The text `fmt.Sprintf("Filling %s page template", name)`. -/
def fillingMessage (name : String) : String := "Filling " ++ name ++ " page template"

/-- The text `fmt.Sprintf("Failed to render %s page template for some locales", name)`. -/
def failedMessage (name : String) : String :=
  "Failed to render " ++ name ++ " page template for some locales"

/-! ## The tracing helper layer -/

/-- Modelled from the spec: the tracer's span store is not among the sources. A span is
reached through its handle: `f` is applied to the span stored under `id`, and a handle outside
the store changes nothing. -/
def updateSpan (f : SpanRecord → SpanRecord) : Nat → List SpanRecord → List SpanRecord
  | _, [] => []
  | 0, s :: ss => f s :: ss
  | n + 1, s :: ss => s :: updateSpan f n ss

/-- Modelled from the spec: the attribute set of a span (not among the sources) has unique
keys, and the last write for a key wins. -/
def putAttr (key : String) (value : Value) (attrs : List (String × Value)) :
    List (String × Value) :=
  attrs.filter (fun kv => kv.1 != key) ++ [(key, value)]

/-- Modelled from the spec: the tracer `tr` of `otel` is not among the sources.
`tr.Start(ctx, name)` is the spec's `StartOperation`: it never fails, creates a new scope
nested under whatever scope is active in `ctx` (a root scope if none is) and returns a context
carrying the new scope together with the handle that closes it. -/
def tr.Start {σ : Type} (ctx : Context) (name : String) (w : State σ) :
    Context × SpanId × State σ :=
  ({ ctx with span := some w.spans.length }, w.spans.length,
    { w with spans := w.spans ++ [⟨name, ctx.span, [], SpanStatus.unset, 0⟩] })

/-- Modelled from the spec: closing a span (`CloseOperation`; not among the sources) marks it
successful if no error was recorded and fixes its status; one more `End` is counted. -/
def SpanRecord.close (s : SpanRecord) : SpanRecord :=
  { s with status := (match s.status with
                      | SpanStatus.unset => SpanStatus.ok
                      | st => st),
           ends := s.ends + 1 }

/-- Modelled from the spec: writing an attribute on a span (`RecordAttribute`; not among the
sources); a closed span ignores it. -/
def SpanRecord.put (key : String) (value : Value) (s : SpanRecord) : SpanRecord :=
  if s.ends = 0 then { s with attrs := putAttr key value s.attrs } else s

/-- Modelled from the spec: recording a failure on a span (`RecordFailure`; not among the
sources) marks it failed with the message, which is also attached as an attribute (the spec
names no key; `"error"` here); a closed span ignores it. -/
def SpanRecord.fail (message : String) (s : SpanRecord) : SpanRecord :=
  if s.ends = 0 then
    { s with status := SpanStatus.error message,
             attrs := putAttr "error" (Value.str message) s.attrs }
  else s

/-- Modelled from the spec: `span.End()` of `otel` is not among the sources. It is the spec's
`CloseOperation`: it finalises the scope and, if no error was recorded, marks it successful;
the status is fixed from then on. -/
def Span.End {σ : Type} (span : SpanId) (w : State σ) : State σ :=
  { w with spans := updateSpan SpanRecord.close span w.spans }

/-- Modelled from the spec: the spec's `RecordAttribute(scope, key, value)`, which the helpers
`tracing.StringSlice`, `tracing.Bool` and `tracing.String` (package `tracing`, not among the
sources) specialise. A side effect only; it never fails; the last write for a key wins; on a
closed scope it is ignored. -/
def RecordAttribute {σ : Type} (span : SpanId) (key : String) (value : Value) (w : State σ) :
    State σ :=
  { w with spans := updateSpan (SpanRecord.put key value) span w.spans }

/-- Modelled from the spec: `tracing.Error(span, err)` (package `tracing`, not among the
sources) is the spec's `RecordFailure(scope, failure)`: it marks the scope's status as failed,
attaches the failure's message as an attribute (the spec names no key; `"error"` here) and
returns the same failure unchanged. On a closed scope the record is ignored. -/
def tracing.Error {σ : Type} (span : SpanId) (err : Failure) (w : State σ) :
    Failure × State σ :=
  (err, { w with spans := updateSpan (SpanRecord.fail err.message) span w.spans })

/-- Modelled from the spec: `tracing.Errorf` (package `tracing`, not among the sources). The
spec describes no helper that builds a failure; at its two call sites `tracing.Errorf` is
handed a message only (a format and its arguments), neither a span nor a context, so it builds
the failure and reaches no scope. -/
def tracing.Errorf (message : String) : Failure := ⟨message⟩

/-- The call `tracing.StringSlice(span, key, value)`. -/
def tracing.StringSlice {σ : Type} (span : SpanId) (key : String) (value : List String)
    (w : State σ) : State σ :=
  RecordAttribute span key (.strs value) w

/-- The Go type `string`, for use where the helper named `tracing.String` hides Lean's. -/
abbrev GoString := String

/-- The Go type `bool`, for use where the helper named `tracing.Bool` hides Lean's. -/
abbrev GoBool := Bool

/-- The call `tracing.Bool(span, key, value)`. -/
def tracing.Bool {σ : Type} (span : SpanId) (key : GoString) (value : GoBool) (w : State σ) :
    State σ :=
  RecordAttribute span key (.bool value) w

/-- The call `tracing.String(span, key, value)`. -/
def tracing.String {σ : Type} (span : SpanId) (key : GoString) (value : GoString)
    (w : State σ) : State σ :=
  RecordAttribute span key (.str value) w

/-! ## `example-api-0.go`: no tracing -/

/-- `RenderPage` of `example-api-0.go`. -/
def RenderPage0 {σ : Type} (env : Env σ) (ctx : Context) (source : Source)
    (container : ContainerContext) (locales : List String) (allLocalesRequired : Bool)
    (w : State σ) : Except Failure Page × State σ :=
  let w := logger.Info (fillingMessage source.Name) [] w
  match FetchAndFillTemplate env ctx source container locales w with
  | (.error err, w) => (.error err, w)
  | (.ok template, w) =>
    match ConfigureFromTemplate env ctx container template locales w with
    | (.error err, w) => (.error err, w)
    | (.ok page, w) =>
      if page.Locales.length ≠ locales.length then
        let message := failedMessage source.Name
        if allLocalesRequired then
          (.error (fmt.Errorf message), w)
        else
          (.ok page,
            logger.Warn message [("locales", .strs locales), ("pages", .strs page.Locales)] w)
      else
        (.ok page, w)

/-- The end of `PrepareContainer` of `example-api-0.go`, from `if dryRun` on. -/
def PrepareContainer0.finish {σ : Type} (env : Env σ) (ctx : Context)
    (container : ContainerContext) (dryRun : Bool) (templateIds : List String) (w : State σ) :
    Except Failure StatusResult × State σ :=
  if dryRun then
    (.ok ⟨Status.StatusDryRun⟩, w)
  else
    let w := logger.Info "Marking page template(s) for usage"
      [("template_ids", .strs templateIds)] w
    match MarkReadyForUsage env ctx container templateIds w with
    | (some err, w) => (.error err, w)
    | (none, w) => (.ok ⟨Status.StatusComplete⟩, w)

/-- `PrepareContainer` of `example-api-0.go`. -/
def PrepareContainer0 {σ : Type} (env : Env σ) (ctx : Context) (container : ContainerContext)
    (locales : List String) (dryRun : Bool) (allLocalesRequired : Bool) (w : State σ) :
    Except Failure StatusResult × State σ :=
  let w := logger.Info "Filling home page template" [] w
  match RenderPage0 env ctx env.home container locales allLocalesRequired w with
  | (.error err, w) => (.error err, w)
  | (.ok homePage, w) =>
    let templateIds := [homePage.ID]
    if container.PageSlugs.FAQ != "" then
      match RenderPage0 env ctx env.faq container locales allLocalesRequired w with
      | (.error err, w) => (.error err, w)
      | (.ok faqPage, w) =>
        PrepareContainer0.finish env ctx container dryRun (templateIds ++ [faqPage.ID]) w
    else
      PrepareContainer0.finish env ctx container dryRun templateIds w

/-! ## `example-api-2.go`: spans and failure recording -/

/-- The body of `RenderPage` of `example-api-2.go`, after `tr.Start` and before the deferred
`span.End()`. -/
def RenderPage2.body {σ : Type} (env : Env σ) (ctx : Context) (span : SpanId) (source : Source)
    (container : ContainerContext) (locales : List String) (allLocalesRequired : Bool)
    (w : State σ) : Except Failure Page × State σ :=
  let w := logger.Info (fillingMessage source.Name) [] w
  match FetchAndFillTemplate env ctx source container locales w with
  | (.error err, w) =>
    match tracing.Error span err w with
    | (err, w) => (.error err, w)
  | (.ok template, w) =>
    match ConfigureFromTemplate env ctx container template locales w with
    | (.error err, w) =>
      match tracing.Error span err w with
      | (err, w) => (.error err, w)
    | (.ok page, w) =>
      if page.Locales.length ≠ locales.length then
        let message := failedMessage source.Name
        if allLocalesRequired then
          (.error (tracing.Errorf message), w)
        else
          (.ok page,
            logger.Warn message [("locales", .strs locales), ("pages", .strs page.Locales)] w)
      else
        (.ok page, w)

/-- `RenderPage` of `example-api-2.go`. -/
def RenderPage2 {σ : Type} (env : Env σ) (ctx : Context) (source : Source)
    (container : ContainerContext) (locales : List String) (allLocalesRequired : Bool)
    (w : State σ) : Except Failure Page × State σ :=
  match tr.Start ctx "render_page" w with
  | (ctx, span, w) =>
    match RenderPage2.body env ctx span source container locales allLocalesRequired w with
    | (result, w) => (result, Span.End span w)

/-- The end of `PrepareContainer` of `example-api-2.go`, from `if dryRun` on. -/
def PrepareContainer2.finish {σ : Type} (env : Env σ) (ctx : Context) (span : SpanId)
    (container : ContainerContext) (dryRun : Bool) (templateIds : List String) (w : State σ) :
    Except Failure StatusResult × State σ :=
  if dryRun then
    (.ok ⟨Status.StatusDryRun⟩, w)
  else
    let w := logger.Info "Marking page template(s) for usage"
      [("template_ids", .strs templateIds)] w
    match MarkReadyForUsage env ctx container templateIds w with
    | (some err, w) =>
      match tracing.Error span err w with
      | (err, w) => (.error err, w)
    | (none, w) => (.ok ⟨Status.StatusComplete⟩, w)

/-- The body of `PrepareContainer` of `example-api-2.go`, after `tr.Start` and before the
deferred `span.End()`. -/
def PrepareContainer2.body {σ : Type} (env : Env σ) (ctx : Context) (span : SpanId)
    (container : ContainerContext) (locales : List String) (dryRun : Bool)
    (allLocalesRequired : Bool) (w : State σ) : Except Failure StatusResult × State σ :=
  match RenderPage2 env ctx env.home container locales allLocalesRequired w with
  | (.error err, w) =>
    match tracing.Error span err w with
    | (err, w) => (.error err, w)
  | (.ok homePage, w) =>
    let templateIds := [homePage.ID]
    if container.PageSlugs.FAQ != "" then
      match RenderPage2 env ctx env.faq container locales allLocalesRequired w with
      | (.error err, w) =>
        match tracing.Error span err w with
        | (err, w) => (.error err, w)
      | (.ok faqPage, w) =>
        PrepareContainer2.finish env ctx span container dryRun (templateIds ++ [faqPage.ID]) w
    else
      PrepareContainer2.finish env ctx span container dryRun templateIds w

/-- `PrepareContainer` of `example-api-2.go`. -/
def PrepareContainer2 {σ : Type} (env : Env σ) (ctx : Context) (container : ContainerContext)
    (locales : List String) (dryRun : Bool) (allLocalesRequired : Bool) (w : State σ) :
    Except Failure StatusResult × State σ :=
  match tr.Start ctx "prepare_container" w with
  | (ctx, span, w) =>
    match PrepareContainer2.body env ctx span container locales dryRun allLocalesRequired w with
    | (result, w) => (result, Span.End span w)

/-! ## `example-api-4.go`: spans, failure recording and attributes -/

/-- The body of `RenderPage` of `example-api-4.go`, after `tr.Start` and before the deferred
`span.End()`. The last test reads the identifier `required`, not the parameter
`allLocalesRequired`. -/
def RenderPage4.body {σ : Type} (env : Env σ) (ctx : Context) (span : SpanId) (source : Source)
    (container : ContainerContext) (locales : List String) (_allLocalesRequired : Bool)
    (w : State σ) : Except Failure Page × State σ :=
  let w := tracing.String span "source_name" source.Name w
  match FetchAndFillTemplate env ctx source container locales w with
  | (.error err, w) =>
    match tracing.Error span err w with
    | (err, w) => (.error err, w)
  | (.ok template, w) =>
    match ConfigureFromTemplate env ctx container template locales w with
    | (.error err, w) =>
      match tracing.Error span err w with
      | (err, w) => (.error err, w)
    | (.ok page, w) =>
      let allLocalesRendered : Bool := page.Locales.length == locales.length
      let w := tracing.Bool span "all_locales_rendered" allLocalesRendered w
      let w := tracing.StringSlice span "locales_rendered" page.Locales w
      if !allLocalesRendered && env.required then
        (.error (tracing.Errorf (failedMessage source.Name)), w)
      else
        (.ok page, w)

/-- `RenderPage` of `example-api-4.go`. -/
def RenderPage4 {σ : Type} (env : Env σ) (ctx : Context) (source : Source)
    (container : ContainerContext) (locales : List String) (allLocalesRequired : Bool)
    (w : State σ) : Except Failure Page × State σ :=
  match tr.Start ctx "render_page" w with
  | (ctx, span, w) =>
    match RenderPage4.body env ctx span source container locales allLocalesRequired w with
    | (result, w) => (result, Span.End span w)

/-- The end of `PrepareContainer` of `example-api-4.go`, from the record of `template_ids`
on. -/
def PrepareContainer4.finish {σ : Type} (env : Env σ) (ctx : Context) (span : SpanId)
    (container : ContainerContext) (dryRun : Bool) (templateIds : List String) (w : State σ) :
    Except Failure StatusResult × State σ :=
  let w := tracing.StringSlice span "template_ids" templateIds w
  if dryRun then
    (.ok ⟨Status.StatusDryRun⟩, w)
  else
    match MarkReadyForUsage env ctx container templateIds w with
    | (some err, w) =>
      match tracing.Error span err w with
      | (err, w) => (.error err, w)
    | (none, w) => (.ok ⟨Status.StatusComplete⟩, w)

/-- The middle of `PrepareContainer` of `example-api-4.go`: from the home page's `RenderPage`
to the end of the FAQ block. -/
def PrepareContainer4.render {σ : Type} (env : Env σ) (ctx : Context) (span : SpanId)
    (container : ContainerContext) (locales : List String) (dryRun : Bool)
    (allLocalesRequired : Bool) (w : State σ) : Except Failure StatusResult × State σ :=
  match RenderPage4 env ctx env.home container locales allLocalesRequired w with
  | (.error err, w) =>
    match tracing.Error span err w with
    | (err, w) => (.error err, w)
  | (.ok homePage, w) =>
    let templateIds := [homePage.ID]
    let hasFaq : Bool := container.PageSlugs.FAQ != ""
    let w := tracing.Bool span "has_faq" hasFaq w
    if hasFaq then
      match RenderPage4 env ctx env.faq container locales allLocalesRequired w with
      | (.error err, w) =>
        match tracing.Error span err w with
        | (err, w) => (.error err, w)
      | (.ok faqPage, w) =>
        PrepareContainer4.finish env ctx span container dryRun (templateIds ++ [faqPage.ID]) w
    else
      PrepareContainer4.finish env ctx span container dryRun templateIds w

/-- The body of `PrepareContainer` of `example-api-4.go`, after `tr.Start` and before the
deferred `span.End()`: the three attributes of the inputs, then the rest. -/
def PrepareContainer4.body {σ : Type} (env : Env σ) (ctx : Context) (span : SpanId)
    (container : ContainerContext) (locales : List String) (dryRun : Bool)
    (allLocalesRequired : Bool) (w : State σ) : Except Failure StatusResult × State σ :=
  let w := tracing.StringSlice span "locales" locales w
  let w := tracing.Bool span "dry_run" dryRun w
  let w := tracing.Bool span "locales_mandatory" allLocalesRequired w
  PrepareContainer4.render env ctx span container locales dryRun allLocalesRequired w

/-- `PrepareContainer` of `example-api-4.go`. -/
def PrepareContainer4 {σ : Type} (env : Env σ) (ctx : Context) (container : ContainerContext)
    (locales : List String) (dryRun : Bool) (allLocalesRequired : Bool) (w : State σ) :
    Except Failure StatusResult × State σ :=
  match tr.Start ctx "prepare_container" w with
  | (ctx, span, w) =>
    match PrepareContainer4.body env ctx span container locales dryRun allLocalesRequired w with
    | (result, w) => (result, Span.End span w)

/-! ## Observations on a run -/

/-- The `templateIds` argument of a call to `MarkReadyForUsage`; `none` for the other
collaborators. -/
def Call.markArg : Call → Option (List String)
  | Call.MarkReadyForUsage _ _ templateIds => some templateIds
  | _ => none

/-- The `templateIds` arguments of the calls to `MarkReadyForUsage` in a call log, in order. -/
def markCalls (calls : List Call) : List (List String) :=
  calls.filterMap Call.markArg

/-- A call with its context argument blanked: what remains is the collaborator called and
the business arguments it received. -/
def Call.withoutContext : Call → Call
  | Call.FetchAndFillTemplate _ source container locales =>
    Call.FetchAndFillTemplate ⟨none⟩ source container locales
  | Call.ConfigureFromTemplate _ container template locales =>
    Call.ConfigureFromTemplate ⟨none⟩ container template locales
  | Call.MarkReadyForUsage _ container templateIds =>
    Call.MarkReadyForUsage ⟨none⟩ container templateIds

/-- What a caller sees of a result: the success value, or that the call failed. -/
def outcome {α : Type} : Except Failure α → Option α
  | .ok a => some a
  | .error _ => none

/-- The collaborators answer from their business arguments and their own state, whatever
context they are handed. -/
def Env.IgnoresContext {σ : Type} (env : Env σ) : Prop :=
  (∀ ctx ctx' source container locales s,
    env.FetchAndFillTemplate ctx source container locales s =
      env.FetchAndFillTemplate ctx' source container locales s) ∧
  (∀ ctx ctx' container template locales s,
    env.ConfigureFromTemplate ctx container template locales s =
      env.ConfigureFromTemplate ctx' container template locales s) ∧
  (∀ ctx ctx' container templateIds s,
    env.MarkReadyForUsage ctx container templateIds s =
      env.MarkReadyForUsage ctx' container templateIds s)

/-- The number of `span.End()` calls the store has seen. -/
def endCalls (spans : List SpanRecord) : Nat :=
  (spans.map SpanRecord.ends).sum

/-- The number of `tr.Start` calls the store has seen: each one adds one span. -/
def startCalls (spans : List SpanRecord) : Nat :=
  spans.length

/-- The spans of a store that are still open. -/
def openSpans (spans : List SpanRecord) : List SpanRecord :=
  spans.filter (fun s => s.ends == 0)

/-- The attribute `key` of a span, if it was recorded. -/
def SpanRecord.attr (s : SpanRecord) (key : String) : Option Value :=
  s.attrs.lookup key

/-- The `RenderPage` call for the home page made by `PrepareContainer` of `example-api-0.go`:
the call with the context and in the state in which `PrepareContainer` makes it. -/
def PrepareContainer0.home {σ : Type} (env : Env σ) (ctx : Context) (container : ContainerContext)
    (locales : List String) (allLocalesRequired : Bool) (w : State σ) :
    Except Failure Page × State σ :=
  RenderPage0 env ctx env.home container locales allLocalesRequired
    (logger.Info "Filling home page template" [] w)

/-- The `RenderPage` call for the FAQ page made by `PrepareContainer` of `example-api-0.go`,
in the state the home page call left. -/
def PrepareContainer0.faq {σ : Type} (env : Env σ) (ctx : Context) (container : ContainerContext)
    (locales : List String) (allLocalesRequired : Bool) (w : State σ) :
    Except Failure Page × State σ :=
  RenderPage0 env ctx env.faq container locales allLocalesRequired
    (PrepareContainer0.home env ctx container locales allLocalesRequired w).2

/-- The `RenderPage` call for the home page made by `PrepareContainer` of `example-api-2.go`:
the call with the context `tr.Start` returned and in the state it left. -/
def PrepareContainer2.home {σ : Type} (env : Env σ) (ctx : Context) (container : ContainerContext)
    (locales : List String) (allLocalesRequired : Bool) (w : State σ) :
    Except Failure Page × State σ :=
  RenderPage2 env (tr.Start ctx "prepare_container" w).1 env.home container locales
    allLocalesRequired (tr.Start ctx "prepare_container" w).2.2

/-- The `RenderPage` call for the FAQ page made by `PrepareContainer` of `example-api-2.go`,
in the state the home page call left. -/
def PrepareContainer2.faq {σ : Type} (env : Env σ) (ctx : Context) (container : ContainerContext)
    (locales : List String) (allLocalesRequired : Bool) (w : State σ) :
    Except Failure Page × State σ :=
  RenderPage2 env (tr.Start ctx "prepare_container" w).1 env.faq container locales
    allLocalesRequired (PrepareContainer2.home env ctx container locales allLocalesRequired w).2

/-- The state in which `PrepareContainer` of `example-api-4.go` calls `RenderPage` for the home
page: the state `tr.Start` left, after the three attributes of the inputs were recorded. -/
def PrepareContainer4.entry {σ : Type} (ctx : Context) (locales : List String) (dryRun : Bool)
    (allLocalesRequired : Bool) (w : State σ) : State σ :=
  tracing.Bool (tr.Start ctx "prepare_container" w).2.1 "locales_mandatory" allLocalesRequired
    (tracing.Bool (tr.Start ctx "prepare_container" w).2.1 "dry_run" dryRun
      (tracing.StringSlice (tr.Start ctx "prepare_container" w).2.1 "locales" locales
        (tr.Start ctx "prepare_container" w).2.2))

/-- The `RenderPage` call for the home page made by `PrepareContainer` of `example-api-4.go`:
the call with the context `tr.Start` returned, after the three attributes were recorded. -/
def PrepareContainer4.home {σ : Type} (env : Env σ) (ctx : Context) (container : ContainerContext)
    (locales : List String) (dryRun : Bool) (allLocalesRequired : Bool) (w : State σ) :
    Except Failure Page × State σ :=
  RenderPage4 env (tr.Start ctx "prepare_container" w).1 env.home container locales
    allLocalesRequired
    (tracing.Bool (tr.Start ctx "prepare_container" w).2.1 "locales_mandatory" allLocalesRequired
      (tracing.Bool (tr.Start ctx "prepare_container" w).2.1 "dry_run" dryRun
        (tracing.StringSlice (tr.Start ctx "prepare_container" w).2.1 "locales" locales
          (tr.Start ctx "prepare_container" w).2.2)))

/-- The `RenderPage` call for the FAQ page made by `PrepareContainer` of `example-api-4.go`,
in the state the home page call left, after `has_faq` was recorded. -/
def PrepareContainer4.faq {σ : Type} (env : Env σ) (ctx : Context) (container : ContainerContext)
    (locales : List String) (dryRun : Bool) (allLocalesRequired : Bool) (w : State σ) :
    Except Failure Page × State σ :=
  RenderPage4 env (tr.Start ctx "prepare_container" w).1 env.faq container locales
    allLocalesRequired
    (tracing.Bool (tr.Start ctx "prepare_container" w).2.1 "has_faq" true
      (PrepareContainer4.home env ctx container locales dryRun allLocalesRequired w).2)

/-- Every value recorded for a run: the attribute values of all spans, then the values of
the key/value pairs of all log lines. -/
def recordedValues {σ : Type} (w : State σ) : List Value :=
  (w.spans.map (fun s => s.attrs.map Prod.snd)).flatten ++
    (w.logs.map (fun l => l.fields.map Prod.snd)).flatten

/-- The requested locales that were not rendered. -/
def missingLocales (requested rendered : List String) : List String :=
  requested.filter (fun l => !rendered.contains l)

/-! ## Concrete collaborators -/

/-- Collaborators that always succeed and count their calls: the template carries the name
of its source, the page takes it as ID and is rendered for exactly the locales `rendered`. -/
def sampleEnv (required : Bool) (rendered : List String) : Env Nat where
  home := ⟨"home"⟩
  faq := ⟨"faq"⟩
  required := required
  FetchAndFillTemplate := fun _ source _ _ s => (.ok ⟨source.Name⟩, s + 1)
  ConfigureFromTemplate := fun _ _ template _ s => (.ok ⟨template.content, rendered⟩, s + 1)
  MarkReadyForUsage := fun _ _ _ s => (none, s + 1)

/-- Collaborators that fail where asked to: `FetchAndFillTemplate` fails for the source named
`failFetch`, `ConfigureFromTemplate` fails for the template of the source named
`failConfigure`, and `MarkReadyForUsage` fails when `failMark` is set. -/
def failingEnv (failFetch failConfigure : String) (failMark : Bool) : Env Nat where
  home := ⟨"home"⟩
  faq := ⟨"faq"⟩
  required := false
  FetchAndFillTemplate := fun _ source _ _ s =>
    if source.Name = failFetch then (.error ⟨"fetch failed"⟩, s + 1)
    else (.ok ⟨source.Name⟩, s + 1)
  ConfigureFromTemplate := fun _ _ template locales s =>
    if template.content = failConfigure then (.error ⟨"configure failed"⟩, s + 1)
    else (.ok ⟨template.content, locales⟩, s + 1)
  MarkReadyForUsage := fun _ _ _ s =>
    if failMark then (some ⟨"mark failed"⟩, s + 1) else (none, s + 1)

/-- Collaborators that render exactly the locales `rendered` and whose `MarkReadyForUsage`
always fails; `required` is false. -/
def markFailingEnv (rendered : List String) : Env Nat where
  home := ⟨"home"⟩
  faq := ⟨"faq"⟩
  required := false
  FetchAndFillTemplate := fun _ source _ _ s => (.ok ⟨source.Name⟩, s + 1)
  ConfigureFromTemplate := fun _ _ template _ s => (.ok ⟨template.content, rendered⟩, s + 1)
  MarkReadyForUsage := fun _ _ _ s => (some ⟨"mark failed"⟩, s + 1)

/-- Collaborators that look at the context they are handed: `FetchAndFillTemplate` refuses to
work when the context carries an active scope; everything else succeeds. -/
def spanSensitiveEnv : Env Nat where
  home := ⟨"home"⟩
  faq := ⟨"faq"⟩
  required := false
  FetchAndFillTemplate := fun ctx source _ _ s =>
    if ctx.span.isSome then (.error ⟨"refused under an active scope"⟩, s + 1)
    else (.ok ⟨source.Name⟩, s + 1)
  ConfigureFromTemplate := fun _ _ template locales s => (.ok ⟨template.content, locales⟩, s + 1)
  MarkReadyForUsage := fun _ _ _ s => (none, s + 1)

/-- A state in which nothing has happened yet. -/
def emptyState : State Nat := ⟨0, [], [], []⟩

/-- A context with no active scope. -/
def rootContext : Context := ⟨none⟩

/-- A container with an FAQ page. -/
def faqContainer : ContainerContext := ⟨⟨"faq"⟩⟩

/-! ## Lemmas on the span store and the call log -/

theorem updateSpan_length_append (f : SpanRecord → SpanRecord) (l : List SpanRecord)
    (a : SpanRecord) (r : List SpanRecord) :
    updateSpan f l.length (l ++ a :: r) = l ++ f a :: r := by
  induction l with
  | nil => simp [updateSpan]
  | cons x xs ih => simp [updateSpan, ih]

theorem markCalls_append (a b : List Call) : markCalls (a ++ b) = markCalls a ++ markCalls b := by
  simp [markCalls]

theorem endCalls_append (a b : List SpanRecord) : endCalls (a ++ b) = endCalls a + endCalls b := by
  simp [endCalls]

theorem openSpans_append (a b : List SpanRecord) :
    openSpans (a ++ b) = openSpans a ++ openSpans b := by
  simp [openSpans]

/-! ## `RenderPage`: what each variant leaves in the state -/

theorem RenderPage0_spans {σ : Type} (env : Env σ) (ctx : Context) (source : Source)
    (container : ContainerContext) (locales : List String) (alr : Bool) (w : State σ) :
    (RenderPage0 env ctx source container locales alr w).2.spans = w.spans := by
  rcases hF : env.FetchAndFillTemplate ctx source container locales w.ext with ⟨e | t, s1⟩
  · simp [RenderPage0, FetchAndFillTemplate, logger.Info, hF]
  · rcases hC : env.ConfigureFromTemplate ctx container t locales s1 with ⟨e | p, s2⟩
    · simp [RenderPage0, FetchAndFillTemplate, ConfigureFromTemplate, logger.Info, hF, hC]
    · by_cases hl : p.Locales.length = locales.length <;> cases alr <;>
      simp [RenderPage0, FetchAndFillTemplate, ConfigureFromTemplate, logger.Info, logger.Warn,
        hF, hC, hl]

theorem RenderPage0_marks {σ : Type} (env : Env σ) (ctx : Context) (source : Source)
    (container : ContainerContext) (locales : List String) (alr : Bool) (w : State σ) :
    markCalls (RenderPage0 env ctx source container locales alr w).2.calls = markCalls w.calls := by
  rcases hF : env.FetchAndFillTemplate ctx source container locales w.ext with ⟨e | t, s1⟩
  · simp [RenderPage0, FetchAndFillTemplate, logger.Info, hF, markCalls, Call.markArg]
  · rcases hC : env.ConfigureFromTemplate ctx container t locales s1 with ⟨e | p, s2⟩
    · simp [RenderPage0, FetchAndFillTemplate, ConfigureFromTemplate, logger.Info, hF, hC,
        markCalls, Call.markArg]
    · by_cases hl : p.Locales.length = locales.length <;> cases alr <;>
      simp [RenderPage0, FetchAndFillTemplate, ConfigureFromTemplate, logger.Info, logger.Warn,
        hF, hC, hl, markCalls, Call.markArg]

theorem RenderPage2_spans {σ : Type} (env : Env σ) (ctx : Context) (source : Source)
    (container : ContainerContext) (locales : List String) (alr : Bool) (w : State σ) :
    ∃ sp, (RenderPage2 env ctx source container locales alr w).2.spans = w.spans ++ [sp] ∧
      sp.name = "render_page" ∧ sp.parent = ctx.span ∧ sp.ends = 1 := by
  rcases hF : env.FetchAndFillTemplate ⟨some w.spans.length⟩ source container locales w.ext
    with ⟨e | t, s1⟩
  · simp [RenderPage2, RenderPage2.body, tr.Start, FetchAndFillTemplate, logger.Info,
      tracing.Error, Span.End, hF, updateSpan_length_append, SpanRecord.fail, SpanRecord.close]
  · rcases hC : env.ConfigureFromTemplate ⟨some w.spans.length⟩ container t locales s1
      with ⟨e | p, s2⟩
    · simp [RenderPage2, RenderPage2.body, tr.Start, FetchAndFillTemplate,
        ConfigureFromTemplate, logger.Info, tracing.Error, Span.End, hF, hC,
        updateSpan_length_append, SpanRecord.fail, SpanRecord.close]
    · by_cases hl : p.Locales.length = locales.length <;> cases alr <;>
      simp [RenderPage2, RenderPage2.body, tr.Start, FetchAndFillTemplate,
        ConfigureFromTemplate, logger.Info, logger.Warn, tracing.Error, Span.End, hF, hC, hl,
        updateSpan_length_append, SpanRecord.fail, SpanRecord.close]

theorem RenderPage2_marks {σ : Type} (env : Env σ) (ctx : Context) (source : Source)
    (container : ContainerContext) (locales : List String) (alr : Bool) (w : State σ) :
    markCalls (RenderPage2 env ctx source container locales alr w).2.calls = markCalls w.calls := by
  rcases hF : env.FetchAndFillTemplate ⟨some w.spans.length⟩ source container locales w.ext
    with ⟨e | t, s1⟩
  · simp [RenderPage2, RenderPage2.body, tr.Start, FetchAndFillTemplate, logger.Info,
      tracing.Error, Span.End, hF, markCalls, Call.markArg]
  · rcases hC : env.ConfigureFromTemplate ⟨some w.spans.length⟩ container t locales s1
      with ⟨e | p, s2⟩
    · simp [RenderPage2, RenderPage2.body, tr.Start, FetchAndFillTemplate,
        ConfigureFromTemplate, logger.Info, tracing.Error, Span.End, hF, hC,
        markCalls, Call.markArg]
    · by_cases hl : p.Locales.length = locales.length <;> cases alr <;>
      simp [RenderPage2, RenderPage2.body, tr.Start, FetchAndFillTemplate,
        ConfigureFromTemplate, logger.Info, logger.Warn, tracing.Error, Span.End, hF, hC, hl,
        markCalls, Call.markArg]

theorem RenderPage4_spans {σ : Type} (env : Env σ) (ctx : Context) (source : Source)
    (container : ContainerContext) (locales : List String) (alr : Bool) (w : State σ) :
    ∃ sp, (RenderPage4 env ctx source container locales alr w).2.spans = w.spans ++ [sp] ∧
      sp.name = "render_page" ∧ sp.parent = ctx.span ∧ sp.ends = 1 := by
  rcases hF : env.FetchAndFillTemplate ⟨some w.spans.length⟩ source container locales w.ext
    with ⟨e | t, s1⟩
  · simp [RenderPage4, RenderPage4.body, tr.Start, FetchAndFillTemplate, tracing.String,
      RecordAttribute, SpanRecord.put,
      tracing.Error, Span.End, hF, updateSpan_length_append, SpanRecord.fail, SpanRecord.close]
  · rcases hC : env.ConfigureFromTemplate ⟨some w.spans.length⟩ container t locales s1
      with ⟨e | p, s2⟩
    · simp [RenderPage4, RenderPage4.body, tr.Start, FetchAndFillTemplate,
        ConfigureFromTemplate, tracing.String, RecordAttribute, SpanRecord.put,
        tracing.Error, Span.End, hF, hC,
        updateSpan_length_append, SpanRecord.fail, SpanRecord.close]
    · by_cases hl : p.Locales.length = locales.length <;> cases hr : env.required <;>
      simp [RenderPage4, RenderPage4.body, tr.Start, FetchAndFillTemplate,
        ConfigureFromTemplate, tracing.String, tracing.Bool, tracing.StringSlice,
        RecordAttribute, SpanRecord.put, tracing.Error, Span.End, hF, hC, hl, hr,
        updateSpan_length_append, SpanRecord.fail, SpanRecord.close]

theorem RenderPage4_marks {σ : Type} (env : Env σ) (ctx : Context) (source : Source)
    (container : ContainerContext) (locales : List String) (alr : Bool) (w : State σ) :
    markCalls (RenderPage4 env ctx source container locales alr w).2.calls = markCalls w.calls := by
  rcases hF : env.FetchAndFillTemplate ⟨some w.spans.length⟩ source container locales w.ext
    with ⟨e | t, s1⟩
  · simp [RenderPage4, RenderPage4.body, tr.Start, FetchAndFillTemplate, tracing.String,
      RecordAttribute, tracing.Error, Span.End, hF, markCalls, Call.markArg]
  · rcases hC : env.ConfigureFromTemplate ⟨some w.spans.length⟩ container t locales s1
      with ⟨e | p, s2⟩
    · simp [RenderPage4, RenderPage4.body, tr.Start, FetchAndFillTemplate,
        ConfigureFromTemplate, tracing.String, RecordAttribute, tracing.Error, Span.End, hF, hC,
        markCalls, Call.markArg]
    · by_cases hl : p.Locales.length = locales.length <;> cases hr : env.required <;>
      simp [RenderPage4, RenderPage4.body, tr.Start, FetchAndFillTemplate,
        ConfigureFromTemplate, tracing.String, tracing.Bool, tracing.StringSlice,
        RecordAttribute, tracing.Error, Span.End, hF, hC, hl, hr, markCalls, Call.markArg]

/-! ## `PrepareContainer`: the calls it makes -/

theorem PrepareContainer2_unfold {σ : Type} (env : Env σ) (ctx : Context)
    (container : ContainerContext) (locales : List String) (dryRun alr : Bool) (w : State σ) :
    PrepareContainer2 env ctx container locales dryRun alr w =
      ((PrepareContainer2.body env (tr.Start ctx "prepare_container" w).1
          (tr.Start ctx "prepare_container" w).2.1 container locales dryRun alr
          (tr.Start ctx "prepare_container" w).2.2).1,
        Span.End (tr.Start ctx "prepare_container" w).2.1
          (PrepareContainer2.body env (tr.Start ctx "prepare_container" w).1
            (tr.Start ctx "prepare_container" w).2.1 container locales dryRun alr
            (tr.Start ctx "prepare_container" w).2.2).2) := rfl

theorem PrepareContainer2_body_calls {σ : Type} (env : Env σ) (ctx : Context) (span : SpanId)
    (container : ContainerContext) (locales : List String) (dryRun alr : Bool) (w : State σ) :
    (PrepareContainer2.body env ctx span container locales dryRun alr w).2.calls =
      match (RenderPage2 env ctx env.home container locales alr w).1 with
      | .error _ => (RenderPage2 env ctx env.home container locales alr w).2.calls
      | .ok homePage =>
        if container.PageSlugs.FAQ = "" then
          (RenderPage2 env ctx env.home container locales alr w).2.calls ++
            (if dryRun then [] else [Call.MarkReadyForUsage ctx container [homePage.ID]])
        else
          match (RenderPage2 env ctx env.faq container locales alr
              (RenderPage2 env ctx env.home container locales alr w).2).1 with
          | .error _ =>
            (RenderPage2 env ctx env.faq container locales alr
              (RenderPage2 env ctx env.home container locales alr w).2).2.calls
          | .ok faqPage =>
            (RenderPage2 env ctx env.faq container locales alr
              (RenderPage2 env ctx env.home container locales alr w).2).2.calls ++
              (if dryRun then []
               else [Call.MarkReadyForUsage ctx container [homePage.ID, faqPage.ID]]) := by
  rcases hh : RenderPage2 env ctx env.home container locales alr w with ⟨e | hp, w1⟩
  · simp [PrepareContainer2.body, hh, tracing.Error]
  · by_cases hq : container.PageSlugs.FAQ = ""
    · rcases hm : env.MarkReadyForUsage ctx container [hp.ID] w1.ext with ⟨e | _, s⟩ <;>
      cases dryRun <;>
      simp [PrepareContainer2.body, PrepareContainer2.finish, MarkReadyForUsage, logger.Info,
        hh, hq, hm, tracing.Error]
    · rcases hf : RenderPage2 env ctx env.faq container locales alr w1 with ⟨e | fp, w2⟩
      · simp [PrepareContainer2.body, hh, hq, hf, tracing.Error]
      · rcases hm : env.MarkReadyForUsage ctx container [hp.ID, fp.ID] w2.ext
          with ⟨e | _, s⟩ <;>
        cases dryRun <;>
        simp [PrepareContainer2.body, PrepareContainer2.finish, MarkReadyForUsage, logger.Info,
          hh, hq, hf, hm, tracing.Error]

theorem PrepareContainer2_body_marks {σ : Type} (env : Env σ) (ctx : Context) (span : SpanId)
    (container : ContainerContext) (locales : List String) (dryRun alr : Bool) (w : State σ) :
    markCalls (PrepareContainer2.body env ctx span container locales dryRun alr w).2.calls =
      markCalls w.calls ++
      match (RenderPage2 env ctx env.home container locales alr w).1 with
      | .error _ => []
      | .ok homePage =>
        if container.PageSlugs.FAQ = "" then
          (if dryRun then [] else [[homePage.ID]])
        else
          match (RenderPage2 env ctx env.faq container locales alr
              (RenderPage2 env ctx env.home container locales alr w).2).1 with
          | .error _ => []
          | .ok faqPage => if dryRun then [] else [[homePage.ID, faqPage.ID]] := by
  rw [PrepareContainer2_body_calls]
  have h1 := RenderPage2_marks env ctx env.home container locales alr w
  have h2 := RenderPage2_marks env ctx env.faq container locales alr
    (RenderPage2 env ctx env.home container locales alr w).2
  rcases hh : (RenderPage2 env ctx env.home container locales alr w).1 with e | hp
  · simp [h1]
  · by_cases hq : container.PageSlugs.FAQ = ""
    · cases dryRun
      · simp [hq, h1, markCalls_append]; simp [markCalls, Call.markArg]
      · simp [hq, h1]
    · rcases hf : (RenderPage2 env ctx env.faq container locales alr
        (RenderPage2 env ctx env.home container locales alr w).2).1 with e | fp
      · simp [hq, h1, h2]
      · cases dryRun
        · simp [hq, h1, h2, markCalls_append]; simp [markCalls, Call.markArg]
        · simp [hq, h1, h2]

theorem SpanRecord.fail_name (m : String) (s : SpanRecord) : (SpanRecord.fail m s).name = s.name := by
  unfold SpanRecord.fail; split <;> rfl

theorem SpanRecord.fail_ends (m : String) (s : SpanRecord) : (SpanRecord.fail m s).ends = s.ends := by
  unfold SpanRecord.fail; split <;> rfl

theorem SpanRecord.fail_parent (m : String) (s : SpanRecord) :
    (SpanRecord.fail m s).parent = s.parent := by
  unfold SpanRecord.fail; split <;> rfl

theorem SpanRecord.put_name (k : String) (v : Value) (s : SpanRecord) :
    (SpanRecord.put k v s).name = s.name := by
  unfold SpanRecord.put; split <;> rfl

theorem SpanRecord.put_ends (k : String) (v : Value) (s : SpanRecord) :
    (SpanRecord.put k v s).ends = s.ends := by
  unfold SpanRecord.put; split <;> rfl

theorem SpanRecord.put_parent (k : String) (v : Value) (s : SpanRecord) :
    (SpanRecord.put k v s).parent = s.parent := by
  unfold SpanRecord.put; split <;> rfl

theorem endCalls_closed (l : List SpanRecord) (h : ∀ s ∈ l, s.ends = 1) :
    endCalls l = l.length := by
  induction l with
  | nil => rfl
  | cons x xs ih =>
    have hx : x.ends = 1 := h x (List.mem_cons_self _ _)
    have hxs : ∀ s ∈ xs, s.ends = 1 := fun s hs => h s (List.mem_cons_of_mem _ hs)
    have := ih hxs
    simp only [endCalls] at this ⊢
    simp [hx, this]; omega

theorem openSpans_closed (l : List SpanRecord) (h : ∀ s ∈ l, s.ends = 1) : openSpans l = [] := by
  simp only [openSpans, List.filter_eq_nil_iff]
  intro s hs
  simp [h s hs]

theorem PrepareContainer2_finish_spans {σ : Type} (env : Env σ) (ctx : Context)
    (container : ContainerContext) (dryRun : Bool) (ids : List String) (w : State σ)
    (pre : List SpanRecord) (p : SpanRecord) (post : List SpanRecord)
    (hs : w.spans = pre ++ p :: post) :
    ∃ p', (PrepareContainer2.finish env ctx pre.length container dryRun ids w).2.spans =
        pre ++ p' :: post ∧ p'.name = p.name ∧ p'.parent = p.parent ∧ p'.ends = p.ends := by
  rcases hm : env.MarkReadyForUsage ctx container ids w.ext with ⟨_ | e, s⟩ <;>
  cases dryRun <;>
  simp [PrepareContainer2.finish, MarkReadyForUsage, logger.Info, tracing.Error, hm, hs,
    updateSpan_length_append, SpanRecord.fail_name, SpanRecord.fail_ends, SpanRecord.fail_parent]

theorem PrepareContainer2_body_spans {σ : Type} (env : Env σ) (ctx : Context)
    (container : ContainerContext) (locales : List String) (dryRun alr : Bool) (w : State σ)
    (pre : List SpanRecord) (p : SpanRecord) (hs : w.spans = pre ++ [p]) :
    ∃ p' rest, (PrepareContainer2.body env ctx pre.length container locales dryRun alr w).2.spans =
        pre ++ p' :: rest ∧ p'.name = p.name ∧ p'.parent = p.parent ∧ p'.ends = p.ends ∧
        ∀ s ∈ rest, s.name = "render_page" ∧ s.ends = 1 := by
  obtain ⟨sp, hsp, hn, _, he⟩ := RenderPage2_spans env ctx env.home container locales alr w
  rcases hh : RenderPage2 env ctx env.home container locales alr w with ⟨e | hp, w1⟩
  · rw [hh] at hsp
    simp only [hs, List.append_assoc, List.singleton_append] at hsp
    refine ⟨SpanRecord.fail e.message p, [sp], ?_, SpanRecord.fail_name _ _,
      SpanRecord.fail_parent _ _, SpanRecord.fail_ends _ _, ?_⟩
    · simp [PrepareContainer2.body, hh, tracing.Error, hsp, updateSpan_length_append]
    · simp [hn, he]
  · rw [hh] at hsp
    simp only [hs, List.append_assoc, List.singleton_append] at hsp
    by_cases hq : container.PageSlugs.FAQ = ""
    · obtain ⟨p', h1, h2, h3, h4⟩ := PrepareContainer2_finish_spans env ctx container dryRun
        [hp.ID] w1 pre p [sp] hsp
      refine ⟨p', [sp], ?_, h2, h3, h4, ?_⟩
      · simp [PrepareContainer2.body, hh, hq, h1]
      · simp [hn, he]
    · obtain ⟨sq, hsq, hqn, _, hqe⟩ := RenderPage2_spans env ctx env.faq container locales alr w1
      rcases hf : RenderPage2 env ctx env.faq container locales alr w1 with ⟨e | fp, w2⟩
      · rw [hf] at hsq
        simp only [hsp, List.append_assoc, List.cons_append, List.nil_append] at hsq
        refine ⟨SpanRecord.fail e.message p, [sp, sq], ?_, SpanRecord.fail_name _ _,
          SpanRecord.fail_parent _ _, SpanRecord.fail_ends _ _, ?_⟩
        · simp [PrepareContainer2.body, hh, hq, hf, tracing.Error, hsq, updateSpan_length_append]
        · simp [hn, he, hqn, hqe]
      · rw [hf] at hsq
        simp only [hsp, List.append_assoc, List.cons_append, List.nil_append] at hsq
        obtain ⟨p', h1, h2, h3, h4⟩ := PrepareContainer2_finish_spans env ctx container dryRun
          [hp.ID, fp.ID] w2 pre p [sp, sq] hsq
        refine ⟨p', [sp, sq], ?_, h2, h3, h4, ?_⟩
        · simp [PrepareContainer2.body, hh, hq, hf, h1]
        · simp [hn, he, hqn, hqe]

theorem PrepareContainer2_spans {σ : Type} (env : Env σ) (ctx : Context)
    (container : ContainerContext) (locales : List String) (dryRun alr : Bool) (w : State σ) :
    ∃ p rest, (PrepareContainer2 env ctx container locales dryRun alr w).2.spans =
        w.spans ++ p :: rest ∧ p.name = "prepare_container" ∧ p.parent = ctx.span ∧ p.ends = 1 ∧
        ∀ s ∈ rest, s.name = "render_page" ∧ s.ends = 1 := by
  obtain ⟨p', rest, h1, h2, h3, h4, h5⟩ := PrepareContainer2_body_spans env
    (tr.Start ctx "prepare_container" w).1 container locales dryRun alr
    (tr.Start ctx "prepare_container" w).2.2 w.spans
    ⟨"prepare_container", ctx.span, [], SpanStatus.unset, 0⟩ rfl
  refine ⟨SpanRecord.close p', rest, ?_, ?_, ?_, ?_, h5⟩
  · rw [PrepareContainer2_unfold]
    exact (congrArg (updateSpan SpanRecord.close w.spans.length) h1).trans
      (updateSpan_length_append _ _ _ _)
  · simpa [SpanRecord.close] using h2
  · simpa [SpanRecord.close] using h3
  · simp [SpanRecord.close, h4]

/-! ## `example-api-2.go` against `example-api-0.go` -/

theorem RenderPage2_sim {σ : Type} (env : Env σ) (hI : env.IgnoresContext) (ctx2 ctx0 : Context)
    (source : Source) (container : ContainerContext) (locales : List String) (alr : Bool)
    (w2 w0 : State σ) (hext : w2.ext = w0.ext)
    (hcalls : w2.calls.map Call.withoutContext = w0.calls.map Call.withoutContext) :
    (RenderPage2 env ctx2 source container locales alr w2).1 =
        (RenderPage0 env ctx0 source container locales alr w0).1 ∧
      (RenderPage2 env ctx2 source container locales alr w2).2.ext =
        (RenderPage0 env ctx0 source container locales alr w0).2.ext ∧
      (RenderPage2 env ctx2 source container locales alr w2).2.calls.map Call.withoutContext =
        (RenderPage0 env ctx0 source container locales alr w0).2.calls.map
          Call.withoutContext := by
  have hF' := hI.1 ⟨some w2.spans.length⟩ ctx0 source container locales w0.ext
  rcases hF : env.FetchAndFillTemplate ctx0 source container locales w0.ext with ⟨e | t, s1⟩
  · rw [hF] at hF'
    simp [RenderPage2, RenderPage2.body, RenderPage0, tr.Start, FetchAndFillTemplate,
      logger.Info, tracing.Error, Span.End, hext, hF, hF', hcalls, Call.withoutContext]
  · rw [hF] at hF'
    have hC' := hI.2.1 ⟨some w2.spans.length⟩ ctx0 container t locales s1
    rcases hC : env.ConfigureFromTemplate ctx0 container t locales s1 with ⟨e | p, s2⟩
    · rw [hC] at hC'
      simp [RenderPage2, RenderPage2.body, RenderPage0, tr.Start, FetchAndFillTemplate,
        ConfigureFromTemplate, logger.Info, tracing.Error, Span.End, hext, hF, hF', hC, hC',
        hcalls, Call.withoutContext]
    · rw [hC] at hC'
      by_cases hl : p.Locales.length = locales.length <;> cases alr <;>
      simp [RenderPage2, RenderPage2.body, RenderPage0, tr.Start, FetchAndFillTemplate,
        ConfigureFromTemplate, logger.Info, logger.Warn, tracing.Error, tracing.Errorf,
        fmt.Errorf, Span.End, hext, hF, hF', hC, hC', hl, hcalls, Call.withoutContext]

theorem PrepareContainer2_finish_sim {σ : Type} (env : Env σ) (hI : env.IgnoresContext)
    (ctx2 ctx0 : Context) (span : SpanId) (container : ContainerContext) (dryRun : Bool)
    (ids : List String) (w2 w0 : State σ) (hext : w2.ext = w0.ext)
    (hcalls : w2.calls.map Call.withoutContext = w0.calls.map Call.withoutContext) :
    (PrepareContainer2.finish env ctx2 span container dryRun ids w2).1 =
        (PrepareContainer0.finish env ctx0 container dryRun ids w0).1 ∧
      (PrepareContainer2.finish env ctx2 span container dryRun ids w2).2.ext =
        (PrepareContainer0.finish env ctx0 container dryRun ids w0).2.ext ∧
      (PrepareContainer2.finish env ctx2 span container dryRun ids w2).2.calls.map
          Call.withoutContext =
        (PrepareContainer0.finish env ctx0 container dryRun ids w0).2.calls.map
          Call.withoutContext := by
  have hM' := hI.2.2 ctx2 ctx0 container ids w0.ext
  rcases hM : env.MarkReadyForUsage ctx0 container ids w0.ext with ⟨_ | e, s⟩ <;>
  rw [hM] at hM' <;> cases dryRun <;>
  simp [PrepareContainer2.finish, PrepareContainer0.finish, MarkReadyForUsage, logger.Info,
    tracing.Error, hext, hM, hM', hcalls, Call.withoutContext]

theorem PrepareContainer2_body_sim {σ : Type} (env : Env σ) (hI : env.IgnoresContext)
    (ctx2 ctx0 : Context) (span : SpanId) (container : ContainerContext) (locales : List String)
    (dryRun alr : Bool) (w2 w0 : State σ) (hext : w2.ext = w0.ext)
    (hcalls : w2.calls.map Call.withoutContext = w0.calls.map Call.withoutContext) :
    (PrepareContainer2.body env ctx2 span container locales dryRun alr w2).1 =
        (PrepareContainer0 env ctx0 container locales dryRun alr w0).1 ∧
      (PrepareContainer2.body env ctx2 span container locales dryRun alr w2).2.ext =
        (PrepareContainer0 env ctx0 container locales dryRun alr w0).2.ext ∧
      (PrepareContainer2.body env ctx2 span container locales dryRun alr w2).2.calls.map
          Call.withoutContext =
        (PrepareContainer0 env ctx0 container locales dryRun alr w0).2.calls.map
          Call.withoutContext := by
  have hs := RenderPage2_sim env hI ctx2 ctx0 env.home container locales alr w2
    (logger.Info "Filling home page template" [] w0) hext hcalls
  rcases hh2 : RenderPage2 env ctx2 env.home container locales alr w2 with ⟨r2, v2⟩
  rcases hh0 : RenderPage0 env ctx0 env.home container locales alr
    (logger.Info "Filling home page template" [] w0) with ⟨r0, v0⟩
  rw [hh2, hh0] at hs
  obtain ⟨hr, he, hc⟩ := hs
  simp only at hr he hc
  subst hr
  rcases r2 with e | hp
  · simp [PrepareContainer2.body, PrepareContainer0, hh2, hh0, tracing.Error, he, hc]
  · by_cases hq : container.PageSlugs.FAQ = ""
    · have hf := PrepareContainer2_finish_sim env hI ctx2 ctx0 span container dryRun [hp.ID]
        v2 v0 he hc
      simpa [PrepareContainer2.body, PrepareContainer0, hh2, hh0, hq] using hf
    · have hs' := RenderPage2_sim env hI ctx2 ctx0 env.faq container locales alr v2 v0 he hc
      rcases hf2 : RenderPage2 env ctx2 env.faq container locales alr v2 with ⟨q2, u2⟩
      rcases hf0 : RenderPage0 env ctx0 env.faq container locales alr v0 with ⟨q0, u0⟩
      rw [hf2, hf0] at hs'
      obtain ⟨hr', he', hc'⟩ := hs'
      simp only at hr' he' hc'
      subst hr'
      rcases q2 with e | fp
      · simp [PrepareContainer2.body, PrepareContainer0, hh2, hh0, hq, hf2, hf0, tracing.Error,
          he', hc']
      · have hf := PrepareContainer2_finish_sim env hI ctx2 ctx0 span container dryRun
          [hp.ID, fp.ID] u2 u0 he' hc'
        simpa [PrepareContainer2.body, PrepareContainer0, hh2, hh0, hq, hf2, hf0] using hf

theorem PrepareContainer2_sim {σ : Type} (env : Env σ) (hI : env.IgnoresContext)
    (ctx : Context) (container : ContainerContext) (locales : List String)
    (dryRun alr : Bool) (w : State σ) :
    (PrepareContainer2 env ctx container locales dryRun alr w).1 =
        (PrepareContainer0 env ctx container locales dryRun alr w).1 ∧
      (PrepareContainer2 env ctx container locales dryRun alr w).2.ext =
        (PrepareContainer0 env ctx container locales dryRun alr w).2.ext ∧
      (PrepareContainer2 env ctx container locales dryRun alr w).2.calls.map
          Call.withoutContext =
        (PrepareContainer0 env ctx container locales dryRun alr w).2.calls.map
          Call.withoutContext :=
  PrepareContainer2_body_sim env hI (tr.Start ctx "prepare_container" w).1 ctx
    (tr.Start ctx "prepare_container" w).2.1 container locales dryRun alr
    (tr.Start ctx "prepare_container" w).2.2 w rfl rfl

/-! ## `PrepareContainer` of `example-api-4.go` and of `example-api-0.go` -/

theorem PrepareContainer4_unfold {σ : Type} (env : Env σ) (ctx : Context)
    (container : ContainerContext) (locales : List String) (dryRun alr : Bool) (w : State σ) :
    PrepareContainer4 env ctx container locales dryRun alr w =
      ((PrepareContainer4.body env (tr.Start ctx "prepare_container" w).1
          (tr.Start ctx "prepare_container" w).2.1 container locales dryRun alr
          (tr.Start ctx "prepare_container" w).2.2).1,
        Span.End (tr.Start ctx "prepare_container" w).2.1
          (PrepareContainer4.body env (tr.Start ctx "prepare_container" w).1
            (tr.Start ctx "prepare_container" w).2.1 container locales dryRun alr
            (tr.Start ctx "prepare_container" w).2.2).2) := rfl

theorem RecordAttribute_spans {σ : Type} (key : String) (value : Value) (w : State σ)
    (pre : List SpanRecord) (p : SpanRecord) (post : List SpanRecord)
    (hs : w.spans = pre ++ p :: post) :
    (RecordAttribute pre.length key value w).spans = pre ++ SpanRecord.put key value p :: post := by
  simp [RecordAttribute, hs, updateSpan_length_append]

theorem PrepareContainer4_render_calls {σ : Type} (env : Env σ) (ctx : Context) (span : SpanId)
    (container : ContainerContext) (locales : List String) (dryRun alr : Bool) (w : State σ) :
    (PrepareContainer4.render env ctx span container locales dryRun alr w).2.calls =
      match (RenderPage4 env ctx env.home container locales alr w).1 with
      | .error _ => (RenderPage4 env ctx env.home container locales alr w).2.calls
      | .ok homePage =>
        if container.PageSlugs.FAQ = "" then
          (RenderPage4 env ctx env.home container locales alr w).2.calls ++
            (if dryRun then [] else [Call.MarkReadyForUsage ctx container [homePage.ID]])
        else
          match (RenderPage4 env ctx env.faq container locales alr
              (tracing.Bool span "has_faq" true
                (RenderPage4 env ctx env.home container locales alr w).2)).1 with
          | .error _ =>
            (RenderPage4 env ctx env.faq container locales alr
              (tracing.Bool span "has_faq" true
                (RenderPage4 env ctx env.home container locales alr w).2)).2.calls
          | .ok faqPage =>
            (RenderPage4 env ctx env.faq container locales alr
              (tracing.Bool span "has_faq" true
                (RenderPage4 env ctx env.home container locales alr w).2)).2.calls ++
              (if dryRun then []
               else [Call.MarkReadyForUsage ctx container [homePage.ID, faqPage.ID]]) := by
  rcases hh : RenderPage4 env ctx env.home container locales alr w with ⟨e | hp, w1⟩
  · simp [PrepareContainer4.render, hh, tracing.Error]
  · by_cases hq : container.PageSlugs.FAQ = ""
    · rcases hm : env.MarkReadyForUsage ctx container [hp.ID] w1.ext with ⟨e | _, s⟩ <;>
      cases dryRun <;>
      simp [PrepareContainer4.render, PrepareContainer4.finish, MarkReadyForUsage,
        tracing.Bool, tracing.StringSlice, RecordAttribute, hh, hq, hm, tracing.Error]
    · have hb : (container.PageSlugs.FAQ != "") = true := by simp [hq]
      rcases hf : RenderPage4 env ctx env.faq container locales alr
        (tracing.Bool span "has_faq" true w1) with ⟨e | fp, w2⟩
      · simp [PrepareContainer4.render, hh, hq, hb, hf, tracing.Error]
      · rcases hm : env.MarkReadyForUsage ctx container [hp.ID, fp.ID] w2.ext
          with ⟨e | _, s⟩ <;>
        cases dryRun <;>
        simp [PrepareContainer4.render, PrepareContainer4.finish, MarkReadyForUsage,
          tracing.StringSlice, RecordAttribute, hh, hq, hb, hf, hm, tracing.Error]

theorem PrepareContainer4_render_marks {σ : Type} (env : Env σ) (ctx : Context) (span : SpanId)
    (container : ContainerContext) (locales : List String) (dryRun alr : Bool) (w : State σ) :
    markCalls (PrepareContainer4.render env ctx span container locales dryRun alr w).2.calls =
      markCalls w.calls ++
      match (RenderPage4 env ctx env.home container locales alr w).1 with
      | .error _ => []
      | .ok homePage =>
        if container.PageSlugs.FAQ = "" then
          (if dryRun then [] else [[homePage.ID]])
        else
          match (RenderPage4 env ctx env.faq container locales alr
              (tracing.Bool span "has_faq" true
                (RenderPage4 env ctx env.home container locales alr w).2)).1 with
          | .error _ => []
          | .ok faqPage => if dryRun then [] else [[homePage.ID, faqPage.ID]] := by
  rw [PrepareContainer4_render_calls]
  have h1 := RenderPage4_marks env ctx env.home container locales alr w
  have h2 := RenderPage4_marks env ctx env.faq container locales alr
    (tracing.Bool span "has_faq" true (RenderPage4 env ctx env.home container locales alr w).2)
  have h3 : (tracing.Bool span "has_faq" true
      (RenderPage4 env ctx env.home container locales alr w).2).calls =
      (RenderPage4 env ctx env.home container locales alr w).2.calls := rfl
  rw [h3] at h2
  rcases hh : (RenderPage4 env ctx env.home container locales alr w).1 with e | hp
  · simp [h1]
  · by_cases hq : container.PageSlugs.FAQ = ""
    · cases dryRun
      · simp [hq, h1, markCalls_append]; simp [markCalls, Call.markArg]
      · simp [hq, h1]
    · rcases hf : (RenderPage4 env ctx env.faq container locales alr
        (tracing.Bool span "has_faq" true
          (RenderPage4 env ctx env.home container locales alr w).2)).1 with e | fp
      · simp [hq, h1, h2]
      · cases dryRun
        · simp [hq, h1, h2, markCalls_append]; simp [markCalls, Call.markArg]
        · simp [hq, h1, h2]

theorem PrepareContainer0_calls {σ : Type} (env : Env σ) (ctx : Context)
    (container : ContainerContext) (locales : List String) (dryRun alr : Bool) (w : State σ) :
    (PrepareContainer0 env ctx container locales dryRun alr w).2.calls =
      match (PrepareContainer0.home env ctx container locales alr w).1 with
      | .error _ => (PrepareContainer0.home env ctx container locales alr w).2.calls
      | .ok homePage =>
        if container.PageSlugs.FAQ = "" then
          (PrepareContainer0.home env ctx container locales alr w).2.calls ++
            (if dryRun then [] else [Call.MarkReadyForUsage ctx container [homePage.ID]])
        else
          match (PrepareContainer0.faq env ctx container locales alr w).1 with
          | .error _ => (PrepareContainer0.faq env ctx container locales alr w).2.calls
          | .ok faqPage =>
            (PrepareContainer0.faq env ctx container locales alr w).2.calls ++
              (if dryRun then []
               else [Call.MarkReadyForUsage ctx container [homePage.ID, faqPage.ID]]) := by
  unfold PrepareContainer0.faq PrepareContainer0.home
  rcases hh : RenderPage0 env ctx env.home container locales alr
    (logger.Info "Filling home page template" [] w) with ⟨e | hp, w1⟩
  · simp only [PrepareContainer0, hh]
  · by_cases hq : container.PageSlugs.FAQ = ""
    · rcases hm : env.MarkReadyForUsage ctx container [hp.ID] w1.ext with ⟨e | _, s⟩ <;>
      cases dryRun <;>
      simp only [PrepareContainer0, hh] <;>
      simp [PrepareContainer0.finish, MarkReadyForUsage, logger.Info, hq, hm]
    · rcases hf : RenderPage0 env ctx env.faq container locales alr w1 with ⟨e | fp, w2⟩
      · simp only [PrepareContainer0, hh]
        simp [hq, hf]
      · rcases hm : env.MarkReadyForUsage ctx container [hp.ID, fp.ID] w2.ext
          with ⟨e | _, s⟩ <;>
        cases dryRun <;>
        simp only [PrepareContainer0, hh] <;>
        simp [PrepareContainer0.finish, MarkReadyForUsage, logger.Info, hq, hf, hm]

theorem PrepareContainer0_marks {σ : Type} (env : Env σ) (ctx : Context)
    (container : ContainerContext) (locales : List String) (dryRun alr : Bool) (w : State σ) :
    markCalls (PrepareContainer0 env ctx container locales dryRun alr w).2.calls =
      markCalls w.calls ++
      match (PrepareContainer0.home env ctx container locales alr w).1 with
      | .error _ => []
      | .ok homePage =>
        if container.PageSlugs.FAQ = "" then
          (if dryRun then [] else [[homePage.ID]])
        else
          match (PrepareContainer0.faq env ctx container locales alr w).1 with
          | .error _ => []
          | .ok faqPage => if dryRun then [] else [[homePage.ID, faqPage.ID]] := by
  rw [PrepareContainer0_calls]
  have h1 : markCalls (PrepareContainer0.home env ctx container locales alr w).2.calls =
      markCalls w.calls :=
    RenderPage0_marks env ctx env.home container locales alr
      (logger.Info "Filling home page template" [] w)
  have h2 : markCalls (PrepareContainer0.faq env ctx container locales alr w).2.calls =
      markCalls (PrepareContainer0.home env ctx container locales alr w).2.calls :=
    RenderPage0_marks env ctx env.faq container locales alr
      (PrepareContainer0.home env ctx container locales alr w).2
  rcases hh : (PrepareContainer0.home env ctx container locales alr w).1 with e | hp
  · simp [h1]
  · by_cases hq : container.PageSlugs.FAQ = ""
    · cases dryRun
      · simp [hq, h1, markCalls_append]; simp [markCalls, Call.markArg]
      · simp [hq, h1]
    · rcases hf : (PrepareContainer0.faq env ctx container locales alr w).1 with e | fp
      · simp [hq, h1, h2]
      · cases dryRun
        · simp [hq, h1, h2, markCalls_append]; simp [markCalls, Call.markArg]
        · simp [hq, h1, h2]

theorem PrepareContainer4_finish_spans {σ : Type} (env : Env σ) (ctx : Context)
    (container : ContainerContext) (dryRun : Bool) (ids : List String) (w : State σ)
    (pre : List SpanRecord) (p : SpanRecord) (post : List SpanRecord)
    (hs : w.spans = pre ++ p :: post) :
    ∃ p', (PrepareContainer4.finish env ctx pre.length container dryRun ids w).2.spans =
        pre ++ p' :: post ∧ p'.name = p.name ∧ p'.parent = p.parent ∧ p'.ends = p.ends := by
  rcases hm : env.MarkReadyForUsage ctx container ids w.ext with ⟨_ | e, s⟩ <;>
  cases dryRun <;>
  simp [PrepareContainer4.finish, MarkReadyForUsage, tracing.StringSlice, RecordAttribute,
    tracing.Error, hm, hs, updateSpan_length_append, SpanRecord.fail_name, SpanRecord.fail_ends,
    SpanRecord.fail_parent, SpanRecord.put_name, SpanRecord.put_ends, SpanRecord.put_parent]

theorem PrepareContainer4_render_spans {σ : Type} (env : Env σ) (ctx : Context)
    (container : ContainerContext) (locales : List String) (dryRun alr : Bool) (w : State σ)
    (pre : List SpanRecord) (p : SpanRecord) (hs : w.spans = pre ++ [p]) :
    ∃ p' rest,
      (PrepareContainer4.render env ctx pre.length container locales dryRun alr w).2.spans =
        pre ++ p' :: rest ∧ p'.name = p.name ∧ p'.parent = p.parent ∧ p'.ends = p.ends ∧
        ∀ s ∈ rest, s.name = "render_page" ∧ s.ends = 1 := by
  obtain ⟨sp, hsp, hn, _, he⟩ := RenderPage4_spans env ctx env.home container locales alr w
  rcases hh : RenderPage4 env ctx env.home container locales alr w with ⟨e | hp, w1⟩
  · rw [hh] at hsp
    simp only [hs, List.append_assoc, List.singleton_append] at hsp
    refine ⟨SpanRecord.fail e.message p, [sp], ?_, SpanRecord.fail_name _ _,
      SpanRecord.fail_parent _ _, SpanRecord.fail_ends _ _, ?_⟩
    · simp [PrepareContainer4.render, hh, tracing.Error, hsp, updateSpan_length_append]
    · simp [hn, he]
  · rw [hh] at hsp
    simp only [hs, List.append_assoc, List.singleton_append] at hsp
    by_cases hq : container.PageSlugs.FAQ = ""
    · have hb : (container.PageSlugs.FAQ != "") = false := by simp [hq]
      have hv := RecordAttribute_spans "has_faq" (Value.bool false) w1 pre p [sp] hsp
      obtain ⟨p', h1, h2, h3, h4⟩ := PrepareContainer4_finish_spans env ctx container dryRun
        [hp.ID] (tracing.Bool pre.length "has_faq" false w1) pre _ [sp] hv
      refine ⟨p', [sp], ?_, ?_, ?_, ?_, ?_⟩
      · simp only [PrepareContainer4.render, hh, hb]
        simpa using h1
      · simpa [SpanRecord.put_name] using h2
      · simpa [SpanRecord.put_parent] using h3
      · simpa [SpanRecord.put_ends] using h4
      · simp [hn, he]
    · have hb : (container.PageSlugs.FAQ != "") = true := by simp [hq]
      have hv := RecordAttribute_spans "has_faq" (Value.bool true) w1 pre p [sp] hsp
      obtain ⟨sq, hsq, hqn, _, hqe⟩ := RenderPage4_spans env ctx env.faq container locales alr
        (tracing.Bool pre.length "has_faq" true w1)
      rcases hf : RenderPage4 env ctx env.faq container locales alr
        (tracing.Bool pre.length "has_faq" true w1) with ⟨e | fp, w2⟩
      · rw [hf] at hsq
        have hsq' : w2.spans = pre ++ SpanRecord.put "has_faq" (Value.bool true) p :: [sp, sq] := by
          rw [hsq]
          show (RecordAttribute pre.length "has_faq" (Value.bool true) w1).spans ++ [sq] = _
          rw [hv]; simp
        refine ⟨SpanRecord.fail e.message (SpanRecord.put "has_faq" (Value.bool true) p), [sp, sq],
          ?_, ?_, ?_, ?_, ?_⟩
        · simp only [PrepareContainer4.render, hh, hb, hf]
          simp [tracing.Error, hsq', updateSpan_length_append]
        · simp [SpanRecord.fail_name, SpanRecord.put_name]
        · simp [SpanRecord.fail_parent, SpanRecord.put_parent]
        · simp [SpanRecord.fail_ends, SpanRecord.put_ends]
        · simp [hn, he, hqn, hqe]
      · rw [hf] at hsq
        have hsq' : w2.spans = pre ++ SpanRecord.put "has_faq" (Value.bool true) p :: [sp, sq] := by
          rw [hsq]
          show (RecordAttribute pre.length "has_faq" (Value.bool true) w1).spans ++ [sq] = _
          rw [hv]; simp
        obtain ⟨p', h1, h2, h3, h4⟩ := PrepareContainer4_finish_spans env ctx container dryRun
          [hp.ID, fp.ID] w2 pre _ [sp, sq] hsq'
        refine ⟨p', [sp, sq], ?_, ?_, ?_, ?_, ?_⟩
        · simp only [PrepareContainer4.render, hh, hb, hf]
          simpa using h1
        · simpa [SpanRecord.put_name] using h2
        · simpa [SpanRecord.put_parent] using h3
        · simpa [SpanRecord.put_ends] using h4
        · simp [hn, he, hqn, hqe]

theorem PrepareContainer4_spans {σ : Type} (env : Env σ) (ctx : Context)
    (container : ContainerContext) (locales : List String) (dryRun alr : Bool) (w : State σ) :
    ∃ p rest, (PrepareContainer4 env ctx container locales dryRun alr w).2.spans =
        w.spans ++ p :: rest ∧ p.name = "prepare_container" ∧ p.parent = ctx.span ∧ p.ends = 1 ∧
        ∀ s ∈ rest, s.name = "render_page" ∧ s.ends = 1 := by
  have h0 : (tracing.Bool w.spans.length "locales_mandatory" alr
      (tracing.Bool w.spans.length "dry_run" dryRun
        (tracing.StringSlice w.spans.length "locales" locales
          (tr.Start ctx "prepare_container" w).2.2))).spans =
      w.spans ++ [SpanRecord.put "locales_mandatory" (Value.bool alr)
        (SpanRecord.put "dry_run" (Value.bool dryRun)
          (SpanRecord.put "locales" (Value.strs locales)
            ⟨"prepare_container", ctx.span, [], SpanStatus.unset, 0⟩))] := by
    simp [tracing.Bool, tracing.StringSlice, RecordAttribute, tr.Start, updateSpan_length_append]
  obtain ⟨p', rest, h1, h2, h3, h4, h5⟩ := PrepareContainer4_render_spans env
    (tr.Start ctx "prepare_container" w).1 container locales dryRun alr _ w.spans _ h0
  refine ⟨SpanRecord.close p', rest, ?_, ?_, ?_, ?_, h5⟩
  · rw [PrepareContainer4_unfold]
    exact (congrArg (updateSpan SpanRecord.close w.spans.length) h1).trans
      (updateSpan_length_append _ _ _ _)
  · simpa [SpanRecord.close, SpanRecord.put_name] using h2
  · simpa [SpanRecord.close, SpanRecord.put_parent] using h3
  · simp [SpanRecord.close, h4, SpanRecord.put_ends]

/-! ## Nested failures -/

theorem PrepareContainer2_body_failures {σ : Type} (env : Env σ) (ctx : Context) (span : SpanId)
    (container : ContainerContext) (locales : List String) (dryRun alr : Bool) (w : State σ) :
    (∀ e, (RenderPage2 env ctx env.home container locales alr w).1 = .error e →
      (PrepareContainer2.body env ctx span container locales dryRun alr w).1 = .error e) ∧
    (∀ hp e, (RenderPage2 env ctx env.home container locales alr w).1 = .ok hp →
      container.PageSlugs.FAQ ≠ "" →
      (RenderPage2 env ctx env.faq container locales alr
        (RenderPage2 env ctx env.home container locales alr w).2).1 = .error e →
      (PrepareContainer2.body env ctx span container locales dryRun alr w).1 = .error e) ∧
    (∀ hp e s, (RenderPage2 env ctx env.home container locales alr w).1 = .ok hp →
      container.PageSlugs.FAQ = "" → dryRun = false →
      env.MarkReadyForUsage ctx container [hp.ID]
        (RenderPage2 env ctx env.home container locales alr w).2.ext = (some e, s) →
      (PrepareContainer2.body env ctx span container locales dryRun alr w).1 = .error e) ∧
    (∀ hp fp e s, (RenderPage2 env ctx env.home container locales alr w).1 = .ok hp →
      container.PageSlugs.FAQ ≠ "" →
      (RenderPage2 env ctx env.faq container locales alr
        (RenderPage2 env ctx env.home container locales alr w).2).1 = .ok fp →
      dryRun = false →
      env.MarkReadyForUsage ctx container [hp.ID, fp.ID]
        (RenderPage2 env ctx env.faq container locales alr
          (RenderPage2 env ctx env.home container locales alr w).2).2.ext = (some e, s) →
      (PrepareContainer2.body env ctx span container locales dryRun alr w).1 = .error e) := by
  rcases hh : RenderPage2 env ctx env.home container locales alr w with ⟨r, w1⟩
  refine ⟨?_, ?_, ?_, ?_⟩
  · intro e h
    simp only at h
    subst h
    simp [PrepareContainer2.body, hh, tracing.Error]
  · intro hp e h hq hf
    simp only at h hf
    subst h
    rcases hf' : RenderPage2 env ctx env.faq container locales alr w1 with ⟨q, w2⟩
    rw [hf'] at hf
    simp only at hf
    subst hf
    simp [PrepareContainer2.body, hh, hq, hf', tracing.Error]
  · intro hp e s h hq hd hm
    simp only at h hm
    subst h hd
    simp [PrepareContainer2.body, PrepareContainer2.finish, MarkReadyForUsage, logger.Info, hh,
      hq, hm, tracing.Error]
  · intro hp fp e s h hq hf hd hm
    simp only at h hf hm
    subst h hd
    rcases hf' : RenderPage2 env ctx env.faq container locales alr w1 with ⟨q, w2⟩
    rw [hf'] at hf hm
    simp only at hf hm
    subst hf
    simp [PrepareContainer2.body, PrepareContainer2.finish, MarkReadyForUsage, logger.Info, hh,
      hq, hf', hm, tracing.Error]

theorem PrepareContainer4_render_failures {σ : Type} (env : Env σ) (ctx : Context)
    (span : SpanId) (container : ContainerContext) (locales : List String) (dryRun alr : Bool)
    (w : State σ) :
    (∀ e, (RenderPage4 env ctx env.home container locales alr w).1 = .error e →
      (PrepareContainer4.render env ctx span container locales dryRun alr w).1 = .error e) ∧
    (∀ hp e, (RenderPage4 env ctx env.home container locales alr w).1 = .ok hp →
      container.PageSlugs.FAQ ≠ "" →
      (RenderPage4 env ctx env.faq container locales alr
        (tracing.Bool span "has_faq" true
          (RenderPage4 env ctx env.home container locales alr w).2)).1 = .error e →
      (PrepareContainer4.render env ctx span container locales dryRun alr w).1 = .error e) ∧
    (∀ hp e s, (RenderPage4 env ctx env.home container locales alr w).1 = .ok hp →
      container.PageSlugs.FAQ = "" → dryRun = false →
      env.MarkReadyForUsage ctx container [hp.ID]
        (RenderPage4 env ctx env.home container locales alr w).2.ext = (some e, s) →
      (PrepareContainer4.render env ctx span container locales dryRun alr w).1 = .error e) ∧
    (∀ hp fp e s, (RenderPage4 env ctx env.home container locales alr w).1 = .ok hp →
      container.PageSlugs.FAQ ≠ "" →
      (RenderPage4 env ctx env.faq container locales alr
        (tracing.Bool span "has_faq" true
          (RenderPage4 env ctx env.home container locales alr w).2)).1 = .ok fp →
      dryRun = false →
      env.MarkReadyForUsage ctx container [hp.ID, fp.ID]
        (RenderPage4 env ctx env.faq container locales alr
          (tracing.Bool span "has_faq" true
            (RenderPage4 env ctx env.home container locales alr w).2)).2.ext = (some e, s) →
      (PrepareContainer4.render env ctx span container locales dryRun alr w).1 = .error e) := by
  rcases hh : RenderPage4 env ctx env.home container locales alr w with ⟨r, w1⟩
  refine ⟨?_, ?_, ?_, ?_⟩
  · intro e h
    simp only at h
    subst h
    simp [PrepareContainer4.render, hh, tracing.Error]
  · intro hp e h hq hf
    simp only at h hf
    subst h
    have hb : (container.PageSlugs.FAQ != "") = true := by simp [hq]
    rcases hf' : RenderPage4 env ctx env.faq container locales alr
      (tracing.Bool span "has_faq" true w1) with ⟨q, w2⟩
    rw [hf'] at hf
    simp only at hf
    subst hf
    simp only [PrepareContainer4.render, hh, hb, hf']
    simp [tracing.Error]
  · intro hp e s h hq hd hm
    simp only at h hm
    subst h hd
    have hb : (container.PageSlugs.FAQ != "") = false := by simp [hq]
    simp only [PrepareContainer4.render, hh, hb]
    simp [PrepareContainer4.finish, MarkReadyForUsage, tracing.StringSlice, tracing.Bool,
      RecordAttribute, hm, tracing.Error]
  · intro hp fp e s h hq hf hd hm
    simp only at h hf hm
    subst h hd
    have hb : (container.PageSlugs.FAQ != "") = true := by simp [hq]
    rcases hf' : RenderPage4 env ctx env.faq container locales alr
      (tracing.Bool span "has_faq" true w1) with ⟨q, w2⟩
    rw [hf'] at hf hm
    simp only at hf hm
    subst hf
    simp only [PrepareContainer4.render, hh, hb, hf']
    simp [PrepareContainer4.finish, MarkReadyForUsage, tracing.StringSlice,
      RecordAttribute, hm, tracing.Error]

/-! ## Runs whose own steps succeed -/

theorem RenderPage2_ok_of_steps {σ : Type} (env : Env σ) (ctx : Context) (source : Source)
    (container : ContainerContext) (locales : List String) (w : State σ)
    (t : Template) (s1 : σ) (page : Page) (s2 : σ)
    (hF : env.FetchAndFillTemplate (tr.Start ctx "render_page" w).1 source container locales
      w.ext = (.ok t, s1))
    (hC : env.ConfigureFromTemplate (tr.Start ctx "render_page" w).1 container t locales s1 =
      (.ok page, s2)) :
    (RenderPage2 env ctx source container locales false w).1 = .ok page := by
  have hF' : env.FetchAndFillTemplate ⟨some w.spans.length⟩ source container locales w.ext =
    (.ok t, s1) := hF
  have hC' : env.ConfigureFromTemplate ⟨some w.spans.length⟩ container t locales s1 =
    (.ok page, s2) := hC
  by_cases hl : page.Locales.length = locales.length <;>
  simp [RenderPage2, RenderPage2.body, tr.Start, FetchAndFillTemplate, ConfigureFromTemplate,
    logger.Info, logger.Warn, Span.End, hF', hC', hl]

theorem RenderPage4_ok_of_steps {σ : Type} (env : Env σ) (hr : env.required = false)
    (ctx : Context) (source : Source) (container : ContainerContext) (locales : List String)
    (alr : Bool) (w : State σ) (t : Template) (s1 : σ) (page : Page) (s2 : σ)
    (hF : env.FetchAndFillTemplate (tr.Start ctx "render_page" w).1 source container locales
      w.ext = (.ok t, s1))
    (hC : env.ConfigureFromTemplate (tr.Start ctx "render_page" w).1 container t locales s1 =
      (.ok page, s2)) :
    (RenderPage4 env ctx source container locales alr w).1 = .ok page := by
  have hF' : env.FetchAndFillTemplate ⟨some w.spans.length⟩ source container locales w.ext =
    (.ok t, s1) := hF
  have hC' : env.ConfigureFromTemplate ⟨some w.spans.length⟩ container t locales s1 =
    (.ok page, s2) := hC
  simp [RenderPage4, RenderPage4.body, tr.Start, FetchAndFillTemplate, ConfigureFromTemplate,
    tracing.String, tracing.Bool, tracing.StringSlice, RecordAttribute, Span.End, hF', hC', hr]

theorem PrepareContainer2_body_goes_on {σ : Type} (env : Env σ) (ctx : Context) (span : SpanId)
    (container : ContainerContext) (locales : List String) (dryRun alr : Bool) (w : State σ)
    (hp : Page) (hh : (RenderPage2 env ctx env.home container locales alr w).1 = .ok hp) :
    (container.PageSlugs.FAQ = "" →
      (dryRun = true →
        (PrepareContainer2.body env ctx span container locales dryRun alr w).1 =
          .ok ⟨Status.StatusDryRun⟩) ∧
      (dryRun = false → ∀ s,
        env.MarkReadyForUsage ctx container [hp.ID]
          (RenderPage2 env ctx env.home container locales alr w).2.ext = (none, s) →
        (PrepareContainer2.body env ctx span container locales dryRun alr w).1 =
          .ok ⟨Status.StatusComplete⟩)) ∧
    (container.PageSlugs.FAQ ≠ "" → ∀ fp,
      (RenderPage2 env ctx env.faq container locales alr
        (RenderPage2 env ctx env.home container locales alr w).2).1 = .ok fp →
      (dryRun = true →
        (PrepareContainer2.body env ctx span container locales dryRun alr w).1 =
          .ok ⟨Status.StatusDryRun⟩) ∧
      (dryRun = false → ∀ s,
        env.MarkReadyForUsage ctx container [hp.ID, fp.ID]
          (RenderPage2 env ctx env.faq container locales alr
            (RenderPage2 env ctx env.home container locales alr w).2).2.ext = (none, s) →
        (PrepareContainer2.body env ctx span container locales dryRun alr w).1 =
          .ok ⟨Status.StatusComplete⟩)) := by
  rcases hh' : RenderPage2 env ctx env.home container locales alr w with ⟨r, w1⟩
  rw [hh'] at hh
  simp only at hh
  subst hh
  refine ⟨?_, ?_⟩
  · intro hq
    refine ⟨?_, ?_⟩
    · intro hd
      subst hd
      simp [PrepareContainer2.body, PrepareContainer2.finish, hh', hq]
    · intro hd s hm
      subst hd
      simp [PrepareContainer2.body, PrepareContainer2.finish, MarkReadyForUsage, logger.Info,
        hh', hq, hm]
  · intro hq fp hf
    rcases hf' : RenderPage2 env ctx env.faq container locales alr w1 with ⟨q, w2⟩
    rw [hf'] at hf
    simp only at hf
    subst hf
    refine ⟨?_, ?_⟩
    · intro hd
      subst hd
      simp [PrepareContainer2.body, PrepareContainer2.finish, hh', hq, hf']
    · intro hd s hm
      subst hd
      simp [PrepareContainer2.body, PrepareContainer2.finish, MarkReadyForUsage, logger.Info,
        hh', hq, hf', hm]

theorem PrepareContainer4_render_goes_on {σ : Type} (env : Env σ) (ctx : Context)
    (span : SpanId) (container : ContainerContext) (locales : List String) (dryRun alr : Bool)
    (w : State σ) (hp : Page)
    (hh : (RenderPage4 env ctx env.home container locales alr w).1 = .ok hp) :
    (container.PageSlugs.FAQ = "" →
      (dryRun = true →
        (PrepareContainer4.render env ctx span container locales dryRun alr w).1 =
          .ok ⟨Status.StatusDryRun⟩) ∧
      (dryRun = false → ∀ s,
        env.MarkReadyForUsage ctx container [hp.ID]
          (RenderPage4 env ctx env.home container locales alr w).2.ext = (none, s) →
        (PrepareContainer4.render env ctx span container locales dryRun alr w).1 =
          .ok ⟨Status.StatusComplete⟩)) ∧
    (container.PageSlugs.FAQ ≠ "" → ∀ fp,
      (RenderPage4 env ctx env.faq container locales alr
        (tracing.Bool span "has_faq" true
          (RenderPage4 env ctx env.home container locales alr w).2)).1 = .ok fp →
      (dryRun = true →
        (PrepareContainer4.render env ctx span container locales dryRun alr w).1 =
          .ok ⟨Status.StatusDryRun⟩) ∧
      (dryRun = false → ∀ s,
        env.MarkReadyForUsage ctx container [hp.ID, fp.ID]
          (RenderPage4 env ctx env.faq container locales alr
            (tracing.Bool span "has_faq" true
              (RenderPage4 env ctx env.home container locales alr w).2)).2.ext = (none, s) →
        (PrepareContainer4.render env ctx span container locales dryRun alr w).1 =
          .ok ⟨Status.StatusComplete⟩)) := by
  rcases hh' : RenderPage4 env ctx env.home container locales alr w with ⟨r, w1⟩
  rw [hh'] at hh
  simp only at hh
  subst hh
  refine ⟨?_, ?_⟩
  · intro hq
    have hb : (container.PageSlugs.FAQ != "") = false := by simp [hq]
    refine ⟨?_, ?_⟩
    · intro hd
      subst hd
      simp only [PrepareContainer4.render, hh', hb]
      simp [PrepareContainer4.finish]
    · intro hd s hm
      subst hd
      simp only at hm
      simp only [PrepareContainer4.render, hh', hb]
      simp [PrepareContainer4.finish, MarkReadyForUsage, tracing.StringSlice, tracing.Bool,
        RecordAttribute, hm]
  · intro hq fp hf
    have hb : (container.PageSlugs.FAQ != "") = true := by simp [hq]
    rcases hf' : RenderPage4 env ctx env.faq container locales alr
      (tracing.Bool span "has_faq" true w1) with ⟨q, w2⟩
    rw [hf'] at hf
    simp only at hf
    subst hf
    refine ⟨?_, ?_⟩
    · intro hd
      subst hd
      simp only [PrepareContainer4.render, hh', hb, hf']
      simp [PrepareContainer4.finish]
    · intro hd s hm
      subst hd
      simp only at hm
      simp only [PrepareContainer4.render, hh', hb, hf']
      simp [PrepareContainer4.finish, MarkReadyForUsage, tracing.StringSlice,
        RecordAttribute, hm]

/-! ## Dry runs -/

theorem PrepareContainer2_body_dry {σ : Type} (env : Env σ) (ctx : Context) (span : SpanId)
    (container : ContainerContext) (locales : List String) (alr : Bool) (w : State σ)
    (hp fp : Page)
    (hh : (RenderPage2 env ctx env.home container locales alr w).1 = .ok hp)
    (hq : container.PageSlugs.FAQ ≠ "")
    (hf : (RenderPage2 env ctx env.faq container locales alr
      (RenderPage2 env ctx env.home container locales alr w).2).1 = .ok fp) :
    PrepareContainer2.body env ctx span container locales true alr w =
      (.ok ⟨Status.StatusDryRun⟩,
        (RenderPage2 env ctx env.faq container locales alr
          (RenderPage2 env ctx env.home container locales alr w).2).2) := by
  rcases hh' : RenderPage2 env ctx env.home container locales alr w with ⟨r, w1⟩
  rw [hh'] at hh hf
  simp only at hh hf
  subst hh
  rcases hf' : RenderPage2 env ctx env.faq container locales alr w1 with ⟨q, w2⟩
  rw [hf'] at hf
  simp only at hf
  subst hf
  simp [PrepareContainer2.body, PrepareContainer2.finish, hh', hq, hf']

theorem PrepareContainer4_render_dry {σ : Type} (env : Env σ) (ctx : Context) (span : SpanId)
    (container : ContainerContext) (locales : List String) (alr : Bool) (w : State σ)
    (hp fp : Page)
    (hh : (RenderPage4 env ctx env.home container locales alr w).1 = .ok hp)
    (hq : container.PageSlugs.FAQ ≠ "")
    (hf : (RenderPage4 env ctx env.faq container locales alr
      (tracing.Bool span "has_faq" true
        (RenderPage4 env ctx env.home container locales alr w).2)).1 = .ok fp) :
    PrepareContainer4.render env ctx span container locales true alr w =
      (.ok ⟨Status.StatusDryRun⟩,
        tracing.StringSlice span "template_ids" [hp.ID, fp.ID]
          (RenderPage4 env ctx env.faq container locales alr
            (tracing.Bool span "has_faq" true
              (RenderPage4 env ctx env.home container locales alr w).2)).2) := by
  have hb : (container.PageSlugs.FAQ != "") = true := by simp [hq]
  rcases hh' : RenderPage4 env ctx env.home container locales alr w with ⟨r, w1⟩
  rw [hh'] at hh hf
  simp only at hh hf
  subst hh
  rcases hf' : RenderPage4 env ctx env.faq container locales alr
    (tracing.Bool span "has_faq" true w1) with ⟨q, w2⟩
  rw [hf'] at hf
  simp only at hf
  subst hf
  simp only [PrepareContainer4.render, hh', hb, hf']
  simp [PrepareContainer4.finish]

theorem PrepareContainer4_render_dry_spans {σ : Type} (env : Env σ) (ctx : Context)
    (container : ContainerContext) (locales : List String) (alr : Bool) (w : State σ)
    (pre : List SpanRecord) (p : SpanRecord) (hs : w.spans = pre ++ [p]) (hp fp : Page)
    (hh : (RenderPage4 env ctx env.home container locales alr w).1 = .ok hp)
    (hq : container.PageSlugs.FAQ ≠ "")
    (hf : (RenderPage4 env ctx env.faq container locales alr
      (tracing.Bool pre.length "has_faq" true
        (RenderPage4 env ctx env.home container locales alr w).2)).1 = .ok fp) :
    ∃ sp sq,
      (PrepareContainer4.render env ctx pre.length container locales true alr w).2.spans =
        pre ++ [SpanRecord.put "template_ids" (Value.strs [hp.ID, fp.ID])
          (SpanRecord.put "has_faq" (Value.bool true) p), sp, sq] := by
  rw [PrepareContainer4_render_dry env ctx pre.length container locales alr w hp fp hh hq hf]
  obtain ⟨sp, hsp, -⟩ := RenderPage4_spans env ctx env.home container locales alr w
  rcases hh' : RenderPage4 env ctx env.home container locales alr w with ⟨r, w1⟩
  rw [hh'] at hsp
  simp only [hs, List.append_assoc, List.singleton_append] at hsp
  have hv := RecordAttribute_spans "has_faq" (Value.bool true) w1 pre p [sp] hsp
  obtain ⟨sq, hsq, -⟩ := RenderPage4_spans env ctx env.faq container locales alr
    (tracing.Bool pre.length "has_faq" true w1)
  rcases hf' : RenderPage4 env ctx env.faq container locales alr
    (tracing.Bool pre.length "has_faq" true w1) with ⟨q, w2⟩
  rw [hf'] at hsq
  have hsq' : w2.spans = pre ++ SpanRecord.put "has_faq" (Value.bool true) p :: [sp, sq] := by
    rw [hsq]
    show (RecordAttribute pre.length "has_faq" (Value.bool true) w1).spans ++ [sq] = _
    rw [hv]; simp
  refine ⟨sp, sq, ?_⟩
  exact RecordAttribute_spans "template_ids" (Value.strs [hp.ID, fp.ID]) w2 pre _ [sp, sq] hsq'

theorem PrepareContainer4_dry_spans {σ : Type} (env : Env σ) (ctx : Context)
    (container : ContainerContext) (locales : List String) (alr : Bool) (w : State σ)
    (hp fp : Page)
    (hh : (PrepareContainer4.home env ctx container locales true alr w).1 = .ok hp)
    (hq : container.PageSlugs.FAQ ≠ "")
    (hf : (PrepareContainer4.faq env ctx container locales true alr w).1 = .ok fp) :
    ∃ rest, (PrepareContainer4 env ctx container locales true alr w).2.spans =
      w.spans ++
        ⟨"prepare_container", ctx.span,
          [("locales", .strs locales), ("dry_run", .bool true), ("locales_mandatory", .bool alr),
           ("has_faq", .bool true), ("template_ids", .strs [hp.ID, fp.ID])],
          SpanStatus.ok, 1⟩ :: rest := by
  have h0 : (tracing.Bool w.spans.length "locales_mandatory" alr
      (tracing.Bool w.spans.length "dry_run" true
        (tracing.StringSlice w.spans.length "locales" locales
          (tr.Start ctx "prepare_container" w).2.2))).spans =
      w.spans ++ [SpanRecord.put "locales_mandatory" (Value.bool alr)
        (SpanRecord.put "dry_run" (Value.bool true)
          (SpanRecord.put "locales" (Value.strs locales)
            ⟨"prepare_container", ctx.span, [], SpanStatus.unset, 0⟩))] := by
    simp [tracing.Bool, tracing.StringSlice, RecordAttribute, tr.Start, updateSpan_length_append]
  obtain ⟨sp, sq, h1⟩ := PrepareContainer4_render_dry_spans env
    (tr.Start ctx "prepare_container" w).1 container locales alr _ w.spans _ h0 hp fp hh hq hf
  refine ⟨[sp, sq], ?_⟩
  rw [PrepareContainer4_unfold]
  refine ((congrArg (updateSpan SpanRecord.close w.spans.length) h1).trans
    (updateSpan_length_append _ _ _ _)).trans ?_
  simp [SpanRecord.put, putAttr, SpanRecord.close]

theorem balanced_of_closed (l news : List SpanRecord) (h : ∀ s ∈ news, s.ends = 1) :
    endCalls (l ++ news) + startCalls l = endCalls l + startCalls (l ++ news) ∧
      openSpans (l ++ news) = openSpans l := by
  refine ⟨?_, ?_⟩
  · rw [endCalls_append, endCalls_closed news h]
    simp only [startCalls, List.length_append]
    omega
  · rw [openSpans_append, openSpans_closed news h, List.append_nil]

theorem sampleEnv_ignoresContext (required : Bool) (rendered : List String) :
    (sampleEnv required rendered).IgnoresContext :=
  ⟨fun _ _ _ _ _ _ => rfl, fun _ _ _ _ _ _ => rfl, fun _ _ _ _ _ => rfl⟩

theorem PrepareContainer2_calls {σ : Type} (env : Env σ) (ctx : Context)
    (container : ContainerContext) (locales : List String) (dryRun alr : Bool) (w : State σ) :
    (PrepareContainer2 env ctx container locales dryRun alr w).2.calls =
      match (PrepareContainer2.home env ctx container locales alr w).1 with
      | .error _ => (PrepareContainer2.home env ctx container locales alr w).2.calls
      | .ok homePage =>
        if container.PageSlugs.FAQ = "" then
          (PrepareContainer2.home env ctx container locales alr w).2.calls ++
            (if dryRun then []
             else [Call.MarkReadyForUsage (tr.Start ctx "prepare_container" w).1 container
               [homePage.ID]])
        else
          match (PrepareContainer2.faq env ctx container locales alr w).1 with
          | .error _ => (PrepareContainer2.faq env ctx container locales alr w).2.calls
          | .ok faqPage =>
            (PrepareContainer2.faq env ctx container locales alr w).2.calls ++
              (if dryRun then []
               else [Call.MarkReadyForUsage (tr.Start ctx "prepare_container" w).1 container
                 [homePage.ID, faqPage.ID]]) :=
  PrepareContainer2_body_calls env (tr.Start ctx "prepare_container" w).1
    (tr.Start ctx "prepare_container" w).2.1 container locales dryRun alr
    (tr.Start ctx "prepare_container" w).2.2

theorem PrepareContainer2_marks {σ : Type} (env : Env σ) (ctx : Context)
    (container : ContainerContext) (locales : List String) (dryRun alr : Bool) (w : State σ) :
    markCalls (PrepareContainer2 env ctx container locales dryRun alr w).2.calls =
      markCalls w.calls ++
      match (PrepareContainer2.home env ctx container locales alr w).1 with
      | .error _ => []
      | .ok homePage =>
        if container.PageSlugs.FAQ = "" then
          (if dryRun then [] else [[homePage.ID]])
        else
          match (PrepareContainer2.faq env ctx container locales alr w).1 with
          | .error _ => []
          | .ok faqPage => if dryRun then [] else [[homePage.ID, faqPage.ID]] :=
  PrepareContainer2_body_marks env (tr.Start ctx "prepare_container" w).1
    (tr.Start ctx "prepare_container" w).2.1 container locales dryRun alr
    (tr.Start ctx "prepare_container" w).2.2

theorem PrepareContainer4_calls {σ : Type} (env : Env σ) (ctx : Context)
    (container : ContainerContext) (locales : List String) (dryRun alr : Bool) (w : State σ) :
    (PrepareContainer4 env ctx container locales dryRun alr w).2.calls =
      match (PrepareContainer4.home env ctx container locales dryRun alr w).1 with
      | .error _ => (PrepareContainer4.home env ctx container locales dryRun alr w).2.calls
      | .ok homePage =>
        if container.PageSlugs.FAQ = "" then
          (PrepareContainer4.home env ctx container locales dryRun alr w).2.calls ++
            (if dryRun then []
             else [Call.MarkReadyForUsage (tr.Start ctx "prepare_container" w).1 container
               [homePage.ID]])
        else
          match (PrepareContainer4.faq env ctx container locales dryRun alr w).1 with
          | .error _ => (PrepareContainer4.faq env ctx container locales dryRun alr w).2.calls
          | .ok faqPage =>
            (PrepareContainer4.faq env ctx container locales dryRun alr w).2.calls ++
              (if dryRun then []
               else [Call.MarkReadyForUsage (tr.Start ctx "prepare_container" w).1 container
                 [homePage.ID, faqPage.ID]]) :=
  PrepareContainer4_render_calls env (tr.Start ctx "prepare_container" w).1
    (tr.Start ctx "prepare_container" w).2.1 container locales dryRun alr
    (tracing.Bool (tr.Start ctx "prepare_container" w).2.1 "locales_mandatory" alr
      (tracing.Bool (tr.Start ctx "prepare_container" w).2.1 "dry_run" dryRun
        (tracing.StringSlice (tr.Start ctx "prepare_container" w).2.1 "locales" locales
          (tr.Start ctx "prepare_container" w).2.2)))

theorem PrepareContainer4_marks {σ : Type} (env : Env σ) (ctx : Context)
    (container : ContainerContext) (locales : List String) (dryRun alr : Bool) (w : State σ) :
    markCalls (PrepareContainer4 env ctx container locales dryRun alr w).2.calls =
      markCalls w.calls ++
      match (PrepareContainer4.home env ctx container locales dryRun alr w).1 with
      | .error _ => []
      | .ok homePage =>
        if container.PageSlugs.FAQ = "" then
          (if dryRun then [] else [[homePage.ID]])
        else
          match (PrepareContainer4.faq env ctx container locales dryRun alr w).1 with
          | .error _ => []
          | .ok faqPage => if dryRun then [] else [[homePage.ID, faqPage.ID]] :=
  PrepareContainer4_render_marks env (tr.Start ctx "prepare_container" w).1
    (tr.Start ctx "prepare_container" w).2.1 container locales dryRun alr
    (tracing.Bool (tr.Start ctx "prepare_container" w).2.1 "locales_mandatory" alr
      (tracing.Bool (tr.Start ctx "prepare_container" w).2.1 "dry_run" dryRun
        (tracing.StringSlice (tr.Start ctx "prepare_container" w).2.1 "locales" locales
          (tr.Start ctx "prepare_container" w).2.2)))

theorem PrepareContainer0_marks_le {σ : Type} (env : Env σ) (ctx : Context)
    (container : ContainerContext) (locales : List String) (dryRun alr : Bool) (w : State σ) :
    (markCalls (PrepareContainer0 env ctx container locales dryRun alr w).2.calls).length ≤
      (markCalls w.calls).length + 1 := by
  rw [PrepareContainer0_marks, List.length_append]
  rcases (PrepareContainer0.home env ctx container locales alr w).1 with e | hp
  · simp
  · by_cases hq : container.PageSlugs.FAQ = ""
    · cases dryRun <;> simp [hq]
    · rcases (PrepareContainer0.faq env ctx container locales alr w).1 with e | fp
      · simp [hq]
      · cases dryRun <;> simp [hq]

theorem PrepareContainer2_marks_le {σ : Type} (env : Env σ) (ctx : Context)
    (container : ContainerContext) (locales : List String) (dryRun alr : Bool) (w : State σ) :
    (markCalls (PrepareContainer2 env ctx container locales dryRun alr w).2.calls).length ≤
      (markCalls w.calls).length + 1 := by
  rw [PrepareContainer2_marks, List.length_append]
  rcases (PrepareContainer2.home env ctx container locales alr w).1 with e | hp
  · simp
  · by_cases hq : container.PageSlugs.FAQ = ""
    · cases dryRun <;> simp [hq]
    · rcases (PrepareContainer2.faq env ctx container locales alr w).1 with e | fp
      · simp [hq]
      · cases dryRun <;> simp [hq]

theorem PrepareContainer4_marks_le {σ : Type} (env : Env σ) (ctx : Context)
    (container : ContainerContext) (locales : List String) (dryRun alr : Bool) (w : State σ) :
    (markCalls (PrepareContainer4 env ctx container locales dryRun alr w).2.calls).length ≤
      (markCalls w.calls).length + 1 := by
  rw [PrepareContainer4_marks, List.length_append]
  rcases (PrepareContainer4.home env ctx container locales dryRun alr w).1 with e | hp
  · simp
  · by_cases hq : container.PageSlugs.FAQ = ""
    · cases dryRun <;> simp [hq]
    · rcases (PrepareContainer4.faq env ctx container locales dryRun alr w).1 with e | fp
      · simp [hq]
      · cases dryRun <;> simp [hq]

/-! ## `example-api-4.go` against `example-api-0.go`, when `required` is the parameter -/

theorem RenderPage4_sim {σ : Type} (env : Env σ) (hI : env.IgnoresContext) (ctx4 ctx0 : Context)
    (source : Source) (container : ContainerContext) (locales : List String) (alr : Bool)
    (hr : env.required = alr) (w4 w0 : State σ) (hext : w4.ext = w0.ext)
    (hcalls : w4.calls.map Call.withoutContext = w0.calls.map Call.withoutContext) :
    (RenderPage4 env ctx4 source container locales alr w4).1 =
        (RenderPage0 env ctx0 source container locales alr w0).1 ∧
      (RenderPage4 env ctx4 source container locales alr w4).2.ext =
        (RenderPage0 env ctx0 source container locales alr w0).2.ext ∧
      (RenderPage4 env ctx4 source container locales alr w4).2.calls.map Call.withoutContext =
        (RenderPage0 env ctx0 source container locales alr w0).2.calls.map
          Call.withoutContext := by
  have hF' := hI.1 ⟨some w4.spans.length⟩ ctx0 source container locales w0.ext
  rcases hF : env.FetchAndFillTemplate ctx0 source container locales w0.ext with ⟨e | t, s1⟩
  · rw [hF] at hF'
    simp [RenderPage4, RenderPage4.body, RenderPage0, tr.Start, FetchAndFillTemplate,
      logger.Info, tracing.String, RecordAttribute, tracing.Error, Span.End, hext, hF, hF',
      hcalls, Call.withoutContext]
  · rw [hF] at hF'
    have hC' := hI.2.1 ⟨some w4.spans.length⟩ ctx0 container t locales s1
    rcases hC : env.ConfigureFromTemplate ctx0 container t locales s1 with ⟨e | p, s2⟩
    · rw [hC] at hC'
      simp [RenderPage4, RenderPage4.body, RenderPage0, tr.Start, FetchAndFillTemplate,
        ConfigureFromTemplate, logger.Info, tracing.String, RecordAttribute, tracing.Error,
        Span.End, hext, hF, hF', hC, hC', hcalls, Call.withoutContext]
    · rw [hC] at hC'
      by_cases hl : p.Locales.length = locales.length <;> cases alr <;>
      simp [RenderPage4, RenderPage4.body, RenderPage0, tr.Start, FetchAndFillTemplate,
        ConfigureFromTemplate, logger.Info, logger.Warn, tracing.String, tracing.Bool,
        tracing.StringSlice, RecordAttribute, tracing.Error, tracing.Errorf,
        fmt.Errorf, Span.End, hext, hF, hF', hC, hC', hl, hr, hcalls, Call.withoutContext]

theorem PrepareContainer4_finish_sim {σ : Type} (env : Env σ) (hI : env.IgnoresContext)
    (ctx4 ctx0 : Context) (span : SpanId) (container : ContainerContext) (dryRun : Bool)
    (ids : List String) (w4 w0 : State σ) (hext : w4.ext = w0.ext)
    (hcalls : w4.calls.map Call.withoutContext = w0.calls.map Call.withoutContext) :
    (PrepareContainer4.finish env ctx4 span container dryRun ids w4).1 =
        (PrepareContainer0.finish env ctx0 container dryRun ids w0).1 ∧
      (PrepareContainer4.finish env ctx4 span container dryRun ids w4).2.ext =
        (PrepareContainer0.finish env ctx0 container dryRun ids w0).2.ext ∧
      (PrepareContainer4.finish env ctx4 span container dryRun ids w4).2.calls.map
          Call.withoutContext =
        (PrepareContainer0.finish env ctx0 container dryRun ids w0).2.calls.map
          Call.withoutContext := by
  have hM' := hI.2.2 ctx4 ctx0 container ids w0.ext
  rcases hM : env.MarkReadyForUsage ctx0 container ids w0.ext with ⟨_ | e, s⟩ <;>
  rw [hM] at hM' <;> cases dryRun <;>
  simp [PrepareContainer4.finish, PrepareContainer0.finish, MarkReadyForUsage, logger.Info,
    tracing.StringSlice, RecordAttribute, tracing.Error, hext, hM, hM', hcalls,
    Call.withoutContext]

theorem PrepareContainer4_render_sim {σ : Type} (env : Env σ) (hI : env.IgnoresContext)
    (ctx4 ctx0 : Context) (span : SpanId) (container : ContainerContext) (locales : List String)
    (dryRun alr : Bool) (hr : env.required = alr) (w4 w0 : State σ) (hext : w4.ext = w0.ext)
    (hcalls : w4.calls.map Call.withoutContext = w0.calls.map Call.withoutContext) :
    (PrepareContainer4.render env ctx4 span container locales dryRun alr w4).1 =
        (PrepareContainer0 env ctx0 container locales dryRun alr w0).1 ∧
      (PrepareContainer4.render env ctx4 span container locales dryRun alr w4).2.ext =
        (PrepareContainer0 env ctx0 container locales dryRun alr w0).2.ext ∧
      (PrepareContainer4.render env ctx4 span container locales dryRun alr w4).2.calls.map
          Call.withoutContext =
        (PrepareContainer0 env ctx0 container locales dryRun alr w0).2.calls.map
          Call.withoutContext := by
  have hs := RenderPage4_sim env hI ctx4 ctx0 env.home container locales alr hr w4
    (logger.Info "Filling home page template" [] w0) hext hcalls
  rcases hh4 : RenderPage4 env ctx4 env.home container locales alr w4 with ⟨r4, v4⟩
  rcases hh0 : RenderPage0 env ctx0 env.home container locales alr
    (logger.Info "Filling home page template" [] w0) with ⟨r0, v0⟩
  rw [hh4, hh0] at hs
  obtain ⟨hres, he, hc⟩ := hs
  simp only at hres he hc
  subst hres
  rcases r4 with e | hp
  · simp [PrepareContainer4.render, PrepareContainer0, hh4, hh0, tracing.Error, he, hc]
  · by_cases hq : container.PageSlugs.FAQ = ""
    · have hb : (container.PageSlugs.FAQ != "") = false := by simp [hq]
      have hf := PrepareContainer4_finish_sim env hI ctx4 ctx0 span container dryRun [hp.ID]
        (tracing.Bool span "has_faq" false v4) v0 he hc
      simp only [PrepareContainer4.render, PrepareContainer0, hh4, hh0, hb]
      simpa using hf
    · have hb : (container.PageSlugs.FAQ != "") = true := by simp [hq]
      have hs' := RenderPage4_sim env hI ctx4 ctx0 env.faq container locales alr hr
        (tracing.Bool span "has_faq" true v4) v0 he hc
      rcases hf4 : RenderPage4 env ctx4 env.faq container locales alr
        (tracing.Bool span "has_faq" true v4) with ⟨q4, u4⟩
      rcases hf0 : RenderPage0 env ctx0 env.faq container locales alr v0 with ⟨q0, u0⟩
      rw [hf4, hf0] at hs'
      obtain ⟨hres', he', hc'⟩ := hs'
      simp only at hres' he' hc'
      subst hres'
      rcases q4 with e | fp
      · simp only [PrepareContainer4.render, PrepareContainer0, hh4, hh0, hb, hf4, hf0]
        simp [tracing.Error, he', hc']
      · have hf := PrepareContainer4_finish_sim env hI ctx4 ctx0 span container dryRun
          [hp.ID, fp.ID] u4 u0 he' hc'
        simp only [PrepareContainer4.render, PrepareContainer0, hh4, hh0, hb, hf4, hf0]
        simpa using hf

/-- When `required` holds the value of the parameter `allLocalesRequired`, `PrepareContainer` of
`example-api-4.go` gives the same result, collaborator state and calls as `PrepareContainer` of
`example-api-0.go`: the attribute records change nothing. -/
theorem PrepareContainer4_sim_of_required {σ : Type} (env : Env σ) (hI : env.IgnoresContext)
    (ctx : Context) (container : ContainerContext) (locales : List String)
    (dryRun alr : Bool) (hr : env.required = alr) (w : State σ) :
    (PrepareContainer4 env ctx container locales dryRun alr w).1 =
        (PrepareContainer0 env ctx container locales dryRun alr w).1 ∧
      (PrepareContainer4 env ctx container locales dryRun alr w).2.ext =
        (PrepareContainer0 env ctx container locales dryRun alr w).2.ext ∧
      (PrepareContainer4 env ctx container locales dryRun alr w).2.calls.map
          Call.withoutContext =
        (PrepareContainer0 env ctx container locales dryRun alr w).2.calls.map
          Call.withoutContext :=
  PrepareContainer4_render_sim env hI (tr.Start ctx "prepare_container" w).1 ctx
    (tr.Start ctx "prepare_container" w).2.1 container locales dryRun alr hr
    (tracing.Bool (tr.Start ctx "prepare_container" w).2.1 "locales_mandatory" alr
      (tracing.Bool (tr.Start ctx "prepare_container" w).2.1 "dry_run" dryRun
        (tracing.StringSlice (tr.Start ctx "prepare_container" w).2.1 "locales" locales
          (tr.Start ctx "prepare_container" w).2.2))) w rfl rfl

/-! ## The claims -/

/-- C1 does not hold as stated: the traced variant hands the collaborators the child context
that `tr.Start` returned, so a collaborator that looks at its context can tell the variants
apart. With a `FetchAndFillTemplate` that refuses to work under an active scope,
`PrepareContainer` of `example-api-0.go` completes after five calls while `PrepareContainer`
of `example-api-2.go` fails after one; `RenderPage` differs in the same way. -/
theorem C1_context_sensitive_collaborator_tells_variants_apart :
    (PrepareContainer0 spanSensitiveEnv rootContext faqContainer ["en"] false false
        emptyState).1 = .ok ⟨Status.StatusComplete⟩ ∧
    (PrepareContainer2 spanSensitiveEnv rootContext faqContainer ["en"] false false
        emptyState).1 = .error ⟨"refused under an active scope"⟩ ∧
    outcome (PrepareContainer2 spanSensitiveEnv rootContext faqContainer ["en"] false false
        emptyState).1 ≠
      outcome (PrepareContainer0 spanSensitiveEnv rootContext faqContainer ["en"] false false
        emptyState).1 ∧
    (PrepareContainer0 spanSensitiveEnv rootContext faqContainer ["en"] false false
        emptyState).2.calls.map Call.withoutContext =
      [Call.FetchAndFillTemplate ⟨none⟩ ⟨"home"⟩ faqContainer ["en"],
       Call.ConfigureFromTemplate ⟨none⟩ faqContainer ⟨"home"⟩ ["en"],
       Call.FetchAndFillTemplate ⟨none⟩ ⟨"faq"⟩ faqContainer ["en"],
       Call.ConfigureFromTemplate ⟨none⟩ faqContainer ⟨"faq"⟩ ["en"],
       Call.MarkReadyForUsage ⟨none⟩ faqContainer ["home", "faq"]] ∧
    (PrepareContainer2 spanSensitiveEnv rootContext faqContainer ["en"] false false
        emptyState).2.calls.map Call.withoutContext =
      [Call.FetchAndFillTemplate ⟨none⟩ ⟨"home"⟩ faqContainer ["en"]] ∧
    (RenderPage0 spanSensitiveEnv rootContext ⟨"home"⟩ faqContainer ["en"] false
        emptyState).1 = .ok ⟨"home", ["en"]⟩ ∧
    (RenderPage2 spanSensitiveEnv rootContext ⟨"home"⟩ faqContainer ["en"] false
        emptyState).1 = .error ⟨"refused under an active scope"⟩ :=
  ⟨rfl, rfl, by decide, rfl, rfl, rfl, rfl⟩

/-- C1 as amended: for collaborators whose answers do not depend on the context they are
handed (they answer from their other arguments and their own state), `PrepareContainer` and
`RenderPage` of `example-api-2.go` give the caller the same outcome as those of
`example-api-0.go` (the same status or page on success, a failure in exactly the same cases),
leave the collaborators in the same state, and call the same collaborators with the same
arguments other than the context in the same order. -/
theorem C1_tracing_keeps_outcomes_and_calls {σ : Type} (env : Env σ)
    (hI : env.IgnoresContext) (ctx : Context) (source : Source) (container : ContainerContext)
    (locales : List String) (dryRun allLocalesRequired : Bool) (w : State σ) :
    (outcome (PrepareContainer2 env ctx container locales dryRun allLocalesRequired w).1 =
        outcome (PrepareContainer0 env ctx container locales dryRun allLocalesRequired w).1 ∧
      (PrepareContainer2 env ctx container locales dryRun allLocalesRequired w).2.ext =
        (PrepareContainer0 env ctx container locales dryRun allLocalesRequired w).2.ext ∧
      (PrepareContainer2 env ctx container locales dryRun allLocalesRequired w).2.calls.map
          Call.withoutContext =
        (PrepareContainer0 env ctx container locales dryRun allLocalesRequired w).2.calls.map
          Call.withoutContext) ∧
    (outcome (RenderPage2 env ctx source container locales allLocalesRequired w).1 =
        outcome (RenderPage0 env ctx source container locales allLocalesRequired w).1 ∧
      (RenderPage2 env ctx source container locales allLocalesRequired w).2.ext =
        (RenderPage0 env ctx source container locales allLocalesRequired w).2.ext ∧
      (RenderPage2 env ctx source container locales allLocalesRequired w).2.calls.map
          Call.withoutContext =
        (RenderPage0 env ctx source container locales allLocalesRequired w).2.calls.map
          Call.withoutContext) := by
  obtain ⟨h1, h2, h3⟩ := PrepareContainer2_sim env hI ctx container locales dryRun
    allLocalesRequired w
  obtain ⟨h4, h5, h6⟩ := RenderPage2_sim env hI ctx ctx source container locales
    allLocalesRequired w w rfl rfl
  exact ⟨⟨congrArg outcome h1, h2, h3⟩, ⟨congrArg outcome h4, h5, h6⟩⟩

/-- C1 as amended, at a concrete run: two locales requested, one rendered, nothing
mandatory. -/
theorem C1_tracing_keeps_outcomes_and_calls_witness :
    (sampleEnv false ["en"]).IgnoresContext ∧
    ((outcome (PrepareContainer2 (sampleEnv false ["en"]) rootContext faqContainer
          ["en", "fr"] false false emptyState).1 =
        outcome (PrepareContainer0 (sampleEnv false ["en"]) rootContext faqContainer
          ["en", "fr"] false false emptyState).1 ∧
      (PrepareContainer2 (sampleEnv false ["en"]) rootContext faqContainer
          ["en", "fr"] false false emptyState).2.ext =
        (PrepareContainer0 (sampleEnv false ["en"]) rootContext faqContainer
          ["en", "fr"] false false emptyState).2.ext ∧
      (PrepareContainer2 (sampleEnv false ["en"]) rootContext faqContainer
          ["en", "fr"] false false emptyState).2.calls.map Call.withoutContext =
        (PrepareContainer0 (sampleEnv false ["en"]) rootContext faqContainer
          ["en", "fr"] false false emptyState).2.calls.map Call.withoutContext) ∧
    (outcome (RenderPage2 (sampleEnv false ["en"]) rootContext ⟨"home"⟩ faqContainer
          ["en", "fr"] false emptyState).1 =
        outcome (RenderPage0 (sampleEnv false ["en"]) rootContext ⟨"home"⟩ faqContainer
          ["en", "fr"] false emptyState).1 ∧
      (RenderPage2 (sampleEnv false ["en"]) rootContext ⟨"home"⟩ faqContainer
          ["en", "fr"] false emptyState).2.ext =
        (RenderPage0 (sampleEnv false ["en"]) rootContext ⟨"home"⟩ faqContainer
          ["en", "fr"] false emptyState).2.ext ∧
      (RenderPage2 (sampleEnv false ["en"]) rootContext ⟨"home"⟩ faqContainer
          ["en", "fr"] false emptyState).2.calls.map Call.withoutContext =
        (RenderPage0 (sampleEnv false ["en"]) rootContext ⟨"home"⟩ faqContainer
          ["en", "fr"] false emptyState).2.calls.map Call.withoutContext)) :=
  ⟨sampleEnv_ignoresContext false ["en"],
    C1_tracing_keeps_outcomes_and_calls (sampleEnv false ["en"])
      (sampleEnv_ignoresContext false ["en"]) rootContext ⟨"home"⟩ faqContainer ["en", "fr"]
      false false emptyState⟩

/-- C2: in `example-api-2.go` and `example-api-4.go`, whatever the inputs and whatever the
collaborators do, `RenderPage` adds exactly one span, named `render_page`, and leaves it
closed exactly once; `PrepareContainer` adds one span named `prepare_container`, closed
exactly once, followed only by the `render_page` spans of its nested calls, each closed
exactly once; over the whole call there are as many `span.End` calls as `tr.Start` calls and
no span is left open that was not open before. -/
theorem C2_every_span_closed_once {σ : Type} (env : Env σ) (ctx : Context) (source : Source)
    (container : ContainerContext) (locales : List String) (dryRun allLocalesRequired : Bool)
    (w : State σ) :
    (∃ sp, (RenderPage2 env ctx source container locales allLocalesRequired w).2.spans =
        w.spans ++ [sp] ∧ sp.name = "render_page" ∧ sp.ends = 1) ∧
    (∃ sp, (RenderPage4 env ctx source container locales allLocalesRequired w).2.spans =
        w.spans ++ [sp] ∧ sp.name = "render_page" ∧ sp.ends = 1) ∧
    (∃ p rest,
      (PrepareContainer2 env ctx container locales dryRun allLocalesRequired w).2.spans =
        w.spans ++ p :: rest ∧ p.name = "prepare_container" ∧ p.ends = 1 ∧
      ∀ s ∈ rest, s.name = "render_page" ∧ s.ends = 1) ∧
    (endCalls (PrepareContainer2 env ctx container locales dryRun allLocalesRequired w).2.spans +
        startCalls w.spans =
      endCalls w.spans +
        startCalls
          (PrepareContainer2 env ctx container locales dryRun allLocalesRequired w).2.spans) ∧
    openSpans (PrepareContainer2 env ctx container locales dryRun allLocalesRequired w).2.spans =
      openSpans w.spans ∧
    (∃ p rest,
      (PrepareContainer4 env ctx container locales dryRun allLocalesRequired w).2.spans =
        w.spans ++ p :: rest ∧ p.name = "prepare_container" ∧ p.ends = 1 ∧
      ∀ s ∈ rest, s.name = "render_page" ∧ s.ends = 1) ∧
    (endCalls (PrepareContainer4 env ctx container locales dryRun allLocalesRequired w).2.spans +
        startCalls w.spans =
      endCalls w.spans +
        startCalls
          (PrepareContainer4 env ctx container locales dryRun allLocalesRequired w).2.spans) ∧
    openSpans (PrepareContainer4 env ctx container locales dryRun allLocalesRequired w).2.spans =
      openSpans w.spans := by
  obtain ⟨s2, a1, a2, -, a3⟩ := RenderPage2_spans env ctx source container locales
    allLocalesRequired w
  obtain ⟨s4, b1, b2, -, b3⟩ := RenderPage4_spans env ctx source container locales
    allLocalesRequired w
  obtain ⟨p2, r2, c1, c2, -, c3, c4⟩ := PrepareContainer2_spans env ctx container locales dryRun
    allLocalesRequired w
  obtain ⟨p4, r4, d1, d2, -, d3, d4⟩ := PrepareContainer4_spans env ctx container locales dryRun
    allLocalesRequired w
  have e2 : ∀ s ∈ p2 :: r2, s.ends = 1 := by
    intro s hs
    rcases List.mem_cons.mp hs with h | h
    · rw [h]; exact c3
    · exact (c4 s h).2
  have e4 : ∀ s ∈ p4 :: r4, s.ends = 1 := by
    intro s hs
    rcases List.mem_cons.mp hs with h | h
    · rw [h]; exact d3
    · exact (d4 s h).2
  refine ⟨⟨s2, a1, a2, a3⟩, ⟨s4, b1, b2, b3⟩, ⟨p2, r2, c1, c2, c3, c4⟩, ?_, ?_,
    ⟨p4, r4, d1, d2, d3, d4⟩, ?_, ?_⟩
  · rw [c1]; exact (balanced_of_closed w.spans (p2 :: r2) e2).1
  · rw [c1]; exact (balanced_of_closed w.spans (p2 :: r2) e2).2
  · rw [d1]; exact (balanced_of_closed w.spans (p4 :: r4) e4).1
  · rw [d1]; exact (balanced_of_closed w.spans (p4 :: r4) e4).2

/-- C3: in `example-api-2.go` and `example-api-4.go` a failure of a nested operation is what
the enclosing function returns, unchanged and with no success value: `tracing.Error` hands
back the failure it was given; `RenderPage` returns the failure of `FetchAndFillTemplate` or
of `ConfigureFromTemplate`; `PrepareContainer` returns the failure of the home page's
`RenderPage`, of the FAQ page's `RenderPage`, or of `MarkReadyForUsage`. -/
theorem C3_nested_failure_returned_unchanged {σ : Type} (env : Env σ) (ctx : Context)
    (source : Source) (container : ContainerContext) (locales : List String)
    (dryRun allLocalesRequired : Bool) (w : State σ) :
    (∀ (span : SpanId) (err : Failure) (v : State σ), (tracing.Error span err v).1 = err) ∧
    (∀ e s,
      env.FetchAndFillTemplate (tr.Start ctx "render_page" w).1 source container locales w.ext =
        (.error e, s) →
      (RenderPage2 env ctx source container locales allLocalesRequired w).1 = .error e) ∧
    (∀ t s1 e s2,
      env.FetchAndFillTemplate (tr.Start ctx "render_page" w).1 source container locales w.ext =
        (.ok t, s1) →
      env.ConfigureFromTemplate (tr.Start ctx "render_page" w).1 container t locales s1 =
        (.error e, s2) →
      (RenderPage2 env ctx source container locales allLocalesRequired w).1 = .error e) ∧
    (∀ e s,
      env.FetchAndFillTemplate (tr.Start ctx "render_page" w).1 source container locales w.ext =
        (.error e, s) →
      (RenderPage4 env ctx source container locales allLocalesRequired w).1 = .error e) ∧
    (∀ t s1 e s2,
      env.FetchAndFillTemplate (tr.Start ctx "render_page" w).1 source container locales w.ext =
        (.ok t, s1) →
      env.ConfigureFromTemplate (tr.Start ctx "render_page" w).1 container t locales s1 =
        (.error e, s2) →
      (RenderPage4 env ctx source container locales allLocalesRequired w).1 = .error e) ∧
    (∀ e, (PrepareContainer2.home env ctx container locales allLocalesRequired w).1 = .error e →
      (PrepareContainer2 env ctx container locales dryRun allLocalesRequired w).1 = .error e) ∧
    (∀ hp e, (PrepareContainer2.home env ctx container locales allLocalesRequired w).1 = .ok hp →
      container.PageSlugs.FAQ ≠ "" →
      (PrepareContainer2.faq env ctx container locales allLocalesRequired w).1 = .error e →
      (PrepareContainer2 env ctx container locales dryRun allLocalesRequired w).1 = .error e) ∧
    (∀ hp e s,
      (PrepareContainer2.home env ctx container locales allLocalesRequired w).1 = .ok hp →
      container.PageSlugs.FAQ = "" → dryRun = false →
      env.MarkReadyForUsage (tr.Start ctx "prepare_container" w).1 container [hp.ID]
        (PrepareContainer2.home env ctx container locales allLocalesRequired w).2.ext =
        (some e, s) →
      (PrepareContainer2 env ctx container locales dryRun allLocalesRequired w).1 = .error e) ∧
    (∀ hp fp e s,
      (PrepareContainer2.home env ctx container locales allLocalesRequired w).1 = .ok hp →
      container.PageSlugs.FAQ ≠ "" →
      (PrepareContainer2.faq env ctx container locales allLocalesRequired w).1 = .ok fp →
      dryRun = false →
      env.MarkReadyForUsage (tr.Start ctx "prepare_container" w).1 container [hp.ID, fp.ID]
        (PrepareContainer2.faq env ctx container locales allLocalesRequired w).2.ext =
        (some e, s) →
      (PrepareContainer2 env ctx container locales dryRun allLocalesRequired w).1 = .error e) ∧
    (∀ e,
      (PrepareContainer4.home env ctx container locales dryRun allLocalesRequired w).1 =
        .error e →
      (PrepareContainer4 env ctx container locales dryRun allLocalesRequired w).1 = .error e) ∧
    (∀ hp e,
      (PrepareContainer4.home env ctx container locales dryRun allLocalesRequired w).1 = .ok hp →
      container.PageSlugs.FAQ ≠ "" →
      (PrepareContainer4.faq env ctx container locales dryRun allLocalesRequired w).1 =
        .error e →
      (PrepareContainer4 env ctx container locales dryRun allLocalesRequired w).1 = .error e) ∧
    (∀ hp e s,
      (PrepareContainer4.home env ctx container locales dryRun allLocalesRequired w).1 = .ok hp →
      container.PageSlugs.FAQ = "" → dryRun = false →
      env.MarkReadyForUsage (tr.Start ctx "prepare_container" w).1 container [hp.ID]
        (PrepareContainer4.home env ctx container locales dryRun allLocalesRequired w).2.ext =
        (some e, s) →
      (PrepareContainer4 env ctx container locales dryRun allLocalesRequired w).1 = .error e) ∧
    (∀ hp fp e s,
      (PrepareContainer4.home env ctx container locales dryRun allLocalesRequired w).1 = .ok hp →
      container.PageSlugs.FAQ ≠ "" →
      (PrepareContainer4.faq env ctx container locales dryRun allLocalesRequired w).1 = .ok fp →
      dryRun = false →
      env.MarkReadyForUsage (tr.Start ctx "prepare_container" w).1 container [hp.ID, fp.ID]
        (PrepareContainer4.faq env ctx container locales dryRun allLocalesRequired w).2.ext =
        (some e, s) →
      (PrepareContainer4 env ctx container locales dryRun allLocalesRequired w).1 = .error e) := by
  obtain ⟨a1, a2, a3, a4⟩ := PrepareContainer2_body_failures env
    (tr.Start ctx "prepare_container" w).1 (tr.Start ctx "prepare_container" w).2.1 container
    locales dryRun allLocalesRequired (tr.Start ctx "prepare_container" w).2.2
  obtain ⟨b1, b2, b3, b4⟩ := PrepareContainer4_render_failures env
    (tr.Start ctx "prepare_container" w).1 (tr.Start ctx "prepare_container" w).2.1 container
    locales dryRun allLocalesRequired
    (tracing.Bool (tr.Start ctx "prepare_container" w).2.1 "locales_mandatory"
      allLocalesRequired
      (tracing.Bool (tr.Start ctx "prepare_container" w).2.1 "dry_run" dryRun
        (tracing.StringSlice (tr.Start ctx "prepare_container" w).2.1 "locales" locales
          (tr.Start ctx "prepare_container" w).2.2)))
  refine ⟨fun _ _ _ => rfl, ?_, ?_, ?_, ?_, a1, a2, a3, a4, b1, b2, b3, b4⟩
  · intro e s hF
    have hF' : env.FetchAndFillTemplate ⟨some w.spans.length⟩ source container locales w.ext =
      (.error e, s) := hF
    simp [RenderPage2, RenderPage2.body, tr.Start, FetchAndFillTemplate, logger.Info,
      tracing.Error, Span.End, hF']
  · intro t s1 e s2 hF hC
    have hF' : env.FetchAndFillTemplate ⟨some w.spans.length⟩ source container locales w.ext =
      (.ok t, s1) := hF
    have hC' : env.ConfigureFromTemplate ⟨some w.spans.length⟩ container t locales s1 =
      (.error e, s2) := hC
    simp [RenderPage2, RenderPage2.body, tr.Start, FetchAndFillTemplate, ConfigureFromTemplate,
      logger.Info, tracing.Error, Span.End, hF', hC']
  · intro e s hF
    have hF' : env.FetchAndFillTemplate ⟨some w.spans.length⟩ source container locales w.ext =
      (.error e, s) := hF
    simp [RenderPage4, RenderPage4.body, tr.Start, FetchAndFillTemplate, tracing.String,
      RecordAttribute, tracing.Error, Span.End, hF']
  · intro t s1 e s2 hF hC
    have hF' : env.FetchAndFillTemplate ⟨some w.spans.length⟩ source container locales w.ext =
      (.ok t, s1) := hF
    have hC' : env.ConfigureFromTemplate ⟨some w.spans.length⟩ container t locales s1 =
      (.error e, s2) := hC
    simp [RenderPage4, RenderPage4.body, tr.Start, FetchAndFillTemplate, ConfigureFromTemplate,
      tracing.String, RecordAttribute, tracing.Error, Span.End, hF', hC']

/-- C3 at concrete runs: a failing `FetchAndFillTemplate` for the home page, seen by
`RenderPage` and by `PrepareContainer` of `example-api-2.go`; a failing FAQ page and a failing
`MarkReadyForUsage`, seen by `PrepareContainer` of `example-api-4.go`. -/
theorem C3_nested_failure_returned_unchanged_witness :
    ((RenderPage2 (failingEnv "home" "" false) rootContext ⟨"home"⟩ faqContainer ["en"] false
        emptyState).1 = .error ⟨"fetch failed"⟩) ∧
    ((PrepareContainer2 (failingEnv "home" "" false) rootContext faqContainer ["en"] false false
        emptyState).1 = .error ⟨"fetch failed"⟩) ∧
    ((PrepareContainer4 (failingEnv "" "faq" false) rootContext faqContainer ["en"] false false
        emptyState).1 = .error ⟨"configure failed"⟩) ∧
    ((PrepareContainer4 (failingEnv "" "" true) rootContext faqContainer ["en"] false false
        emptyState).1 = .error ⟨"mark failed"⟩) :=
  ⟨(C3_nested_failure_returned_unchanged (failingEnv "home" "" false) rootContext ⟨"home"⟩
      faqContainer ["en"] false false emptyState).2.1 ⟨"fetch failed"⟩ 1 rfl,
    (C3_nested_failure_returned_unchanged (failingEnv "home" "" false) rootContext ⟨"home"⟩
      faqContainer ["en"] false false emptyState).2.2.2.2.2.1 ⟨"fetch failed"⟩ rfl,
    (C3_nested_failure_returned_unchanged (failingEnv "" "faq" false) rootContext ⟨"home"⟩
      faqContainer ["en"] false false emptyState).2.2.2.2.2.2.2.2.2.2.1 ⟨"home", ["en"]⟩
      ⟨"configure failed"⟩ rfl (by decide) rfl,
    (C3_nested_failure_returned_unchanged (failingEnv "" "" true) rootContext ⟨"home"⟩
      faqContainer ["en"] false false emptyState).2.2.2.2.2.2.2.2.2.2.2.2 ⟨"home", ["en"]⟩
      ⟨"faq", ["en"]⟩ ⟨"mark failed"⟩ 5 rfl (by decide) rfl rfl rfl⟩

/-- C4 on the code: with `["en", "fr"]` requested, `["en"]` rendered and all locales
mandatory, `RenderPage` returns the failure built by `tracing.Errorf`, which was handed no
span: the `render_page` span closes with status `ok` and without an `error` attribute, in
`example-api-2.go` and in `example-api-4.go` (with `required` true). The sibling path records
its failure: when `FetchAndFillTemplate` fails, the same span closes with status `error`. -/
theorem C4_locale_failure_is_not_recorded_on_the_span :
    (RenderPage2 (sampleEnv true ["en"]) rootContext ⟨"home"⟩ faqContainer ["en", "fr"] true
        emptyState).1 = .error ⟨"Failed to render home page template for some locales"⟩ ∧
    (RenderPage2 (sampleEnv true ["en"]) rootContext ⟨"home"⟩ faqContainer ["en", "fr"] true
        emptyState).2.spans = [⟨"render_page", none, [], SpanStatus.ok, 1⟩] ∧
    (RenderPage4 (sampleEnv true ["en"]) rootContext ⟨"home"⟩ faqContainer ["en", "fr"] true
        emptyState).1 = .error ⟨"Failed to render home page template for some locales"⟩ ∧
    (RenderPage4 (sampleEnv true ["en"]) rootContext ⟨"home"⟩ faqContainer ["en", "fr"] true
        emptyState).2.spans =
      [⟨"render_page", none,
        [("source_name", .str "home"), ("all_locales_rendered", .bool false),
         ("locales_rendered", .strs ["en"])], SpanStatus.ok, 1⟩] ∧
    (RenderPage2 (failingEnv "home" "" false) rootContext ⟨"home"⟩ faqContainer ["en", "fr"]
        true emptyState).1 = .error ⟨"fetch failed"⟩ ∧
    (RenderPage2 (failingEnv "home" "" false) rootContext ⟨"home"⟩ faqContainer ["en", "fr"]
        true emptyState).2.spans =
      [⟨"render_page", none, [("error", .str "fetch failed")],
        SpanStatus.error "fetch failed", 1⟩] :=
  ⟨rfl, rfl, rfl, rfl, rfl, rfl⟩

/-- C5 on the code: with `["en", "fr"]` requested, `["en"]` rendered and all locales
mandatory, `PrepareContainer` returns the rendering failure, records it on its own span and
never calls `MarkReadyForUsage`; but the `render_page` span of the failed rendering closes
with status `ok`, in `example-api-2.go` and in `example-api-4.go` (with `required` true). In
`example-api-4.go` with `required` false the same input does not fail at all and
`MarkReadyForUsage` is called. -/
theorem C5_render_span_not_marked_failed :
    (PrepareContainer2 (sampleEnv true ["en"]) rootContext faqContainer ["en", "fr"] false true
        emptyState).1 = .error ⟨"Failed to render home page template for some locales"⟩ ∧
    markCalls (PrepareContainer2 (sampleEnv true ["en"]) rootContext faqContainer ["en", "fr"]
        false true emptyState).2.calls = [] ∧
    (PrepareContainer2 (sampleEnv true ["en"]) rootContext faqContainer ["en", "fr"] false true
        emptyState).2.spans =
      [⟨"prepare_container", none,
          [("error", .str "Failed to render home page template for some locales")],
          SpanStatus.error "Failed to render home page template for some locales", 1⟩,
       ⟨"render_page", some 0, [], SpanStatus.ok, 1⟩] ∧
    (PrepareContainer4 (sampleEnv true ["en"]) rootContext faqContainer ["en", "fr"] false true
        emptyState).1 = .error ⟨"Failed to render home page template for some locales"⟩ ∧
    markCalls (PrepareContainer4 (sampleEnv true ["en"]) rootContext faqContainer ["en", "fr"]
        false true emptyState).2.calls = [] ∧
    ((PrepareContainer4 (sampleEnv true ["en"]) rootContext faqContainer ["en", "fr"] false true
        emptyState).2.spans.map (fun s => (s.name, s.status))) =
      [("prepare_container",
          SpanStatus.error "Failed to render home page template for some locales"),
       ("render_page", SpanStatus.ok)] ∧
    (PrepareContainer4 (sampleEnv false ["en"]) rootContext faqContainer ["en", "fr"] false true
        emptyState).1 = .ok ⟨Status.StatusComplete⟩ ∧
    markCalls (PrepareContainer4 (sampleEnv false ["en"]) rootContext faqContainer ["en", "fr"]
        false true emptyState).2.calls = [["home", "faq"]] :=
  ⟨rfl, rfl, rfl, rfl, rfl, rfl, rfl, rfl⟩

/-- C6 does not hold as stated: with `["en", "fr"]` requested, `["en"]` rendered and
`allLocalesRequired = false`, `RenderPage` succeeds, but nothing it records lists the missing
locales `["fr"]`. `example-api-2.go` logs the requested and the rendered locales;
`example-api-4.go` (with `required` false) records the source name, `all_locales_rendered` and
the rendered locales. -/
theorem C6_no_record_lists_the_missing_locales :
    (RenderPage2 (sampleEnv false ["en"]) rootContext ⟨"home"⟩ faqContainer ["en", "fr"] false
        emptyState).1 = .ok ⟨"home", ["en"]⟩ ∧
    missingLocales ["en", "fr"] ["en"] = ["fr"] ∧
    recordedValues (RenderPage2 (sampleEnv false ["en"]) rootContext ⟨"home"⟩ faqContainer
        ["en", "fr"] false emptyState).2 = [Value.strs ["en", "fr"], Value.strs ["en"]] ∧
    Value.strs (missingLocales ["en", "fr"] ["en"]) ∉
      recordedValues (RenderPage2 (sampleEnv false ["en"]) rootContext ⟨"home"⟩ faqContainer
        ["en", "fr"] false emptyState).2 ∧
    (RenderPage4 (sampleEnv false ["en"]) rootContext ⟨"home"⟩ faqContainer ["en", "fr"] false
        emptyState).1 = .ok ⟨"home", ["en"]⟩ ∧
    recordedValues (RenderPage4 (sampleEnv false ["en"]) rootContext ⟨"home"⟩ faqContainer
        ["en", "fr"] false emptyState).2 =
      [Value.str "home", Value.bool false, Value.strs ["en"]] ∧
    Value.strs (missingLocales ["en", "fr"] ["en"]) ∉
      recordedValues (RenderPage4 (sampleEnv false ["en"]) rootContext ⟨"home"⟩ faqContainer
        ["en", "fr"] false emptyState).2 :=
  ⟨rfl, rfl, rfl, by decide, rfl, rfl, by decide⟩

/-- C6 as amended: when `FetchAndFillTemplate` and `ConfigureFromTemplate` succeed, the page
has fewer locales than requested and `allLocalesRequired = false`, `RenderPage` succeeds and
returns the page; `example-api-2.go` logs one warning carrying the requested locales and the
rendered locales; `example-api-4.go`, when `required` is false as well, records
`all_locales_rendered = false` and the rendered locales on its span. `PrepareContainer` then
goes on to completion: when the `FetchAndFillTemplate` and `ConfigureFromTemplate` steps of
its own run succeed (for the home page and, with an FAQ slug, for the FAQ page), whatever the
pages' locales are, it returns `StatusDryRun` if `dryRun`, and `StatusComplete` if `dryRun` is
false and its call to `MarkReadyForUsage` succeeds. -/
theorem C6_incomplete_rendering_is_recorded_and_tolerated {σ : Type} (env : Env σ)
    (ctx : Context) (source : Source) (container : ContainerContext) (locales : List String)
    (dryRun : Bool) (w : State σ) :
    (∀ t s1 page s2,
      env.FetchAndFillTemplate (tr.Start ctx "render_page" w).1 source container locales w.ext =
        (.ok t, s1) →
      env.ConfigureFromTemplate (tr.Start ctx "render_page" w).1 container t locales s1 =
        (.ok page, s2) →
      page.Locales.length < locales.length →
      (RenderPage2 env ctx source container locales false w).1 = .ok page ∧
      (RenderPage2 env ctx source container locales false w).2.logs =
        w.logs ++ [⟨Level.info, fillingMessage source.Name, []⟩,
          ⟨Level.warn, failedMessage source.Name,
            [("locales", .strs locales), ("pages", .strs page.Locales)]⟩]) ∧
    (env.required = false → ∀ t s1 page s2,
      env.FetchAndFillTemplate (tr.Start ctx "render_page" w).1 source container locales w.ext =
        (.ok t, s1) →
      env.ConfigureFromTemplate (tr.Start ctx "render_page" w).1 container t locales s1 =
        (.ok page, s2) →
      page.Locales.length < locales.length →
      (RenderPage4 env ctx source container locales false w).1 = .ok page ∧
      (RenderPage4 env ctx source container locales false w).2.spans =
        w.spans ++ [⟨"render_page", ctx.span,
          [("source_name", .str source.Name), ("all_locales_rendered", .bool false),
           ("locales_rendered", .strs page.Locales)], SpanStatus.ok, 1⟩]) ∧
    (∀ t s1 hp s2,
      env.FetchAndFillTemplate
        (tr.Start (tr.Start ctx "prepare_container" w).1 "render_page"
          (tr.Start ctx "prepare_container" w).2.2).1
        env.home container locales (tr.Start ctx "prepare_container" w).2.2.ext = (.ok t, s1) →
      env.ConfigureFromTemplate
        (tr.Start (tr.Start ctx "prepare_container" w).1 "render_page"
          (tr.Start ctx "prepare_container" w).2.2).1
        container t locales s1 = (.ok hp, s2) →
      (container.PageSlugs.FAQ = "" →
        (dryRun = true →
          (PrepareContainer2 env ctx container locales dryRun false w).1 =
            .ok ⟨Status.StatusDryRun⟩) ∧
        (dryRun = false → ∀ s,
          env.MarkReadyForUsage (tr.Start ctx "prepare_container" w).1 container [hp.ID]
            (PrepareContainer2.home env ctx container locales false w).2.ext = (none, s) →
          (PrepareContainer2 env ctx container locales dryRun false w).1 =
            .ok ⟨Status.StatusComplete⟩)) ∧
      (container.PageSlugs.FAQ ≠ "" → ∀ t' s3 fp s4,
        env.FetchAndFillTemplate
          (tr.Start (tr.Start ctx "prepare_container" w).1 "render_page"
            (PrepareContainer2.home env ctx container locales false w).2).1
          env.faq container locales
          (PrepareContainer2.home env ctx container locales false w).2.ext = (.ok t', s3) →
        env.ConfigureFromTemplate
          (tr.Start (tr.Start ctx "prepare_container" w).1 "render_page"
            (PrepareContainer2.home env ctx container locales false w).2).1
          container t' locales s3 = (.ok fp, s4) →
        (dryRun = true →
          (PrepareContainer2 env ctx container locales dryRun false w).1 =
            .ok ⟨Status.StatusDryRun⟩) ∧
        (dryRun = false → ∀ s,
          env.MarkReadyForUsage (tr.Start ctx "prepare_container" w).1 container
            [hp.ID, fp.ID]
            (PrepareContainer2.faq env ctx container locales false w).2.ext = (none, s) →
          (PrepareContainer2 env ctx container locales dryRun false w).1 =
            .ok ⟨Status.StatusComplete⟩))) ∧
    (env.required = false → ∀ t s1 hp s2,
      env.FetchAndFillTemplate
        (tr.Start (tr.Start ctx "prepare_container" w).1 "render_page"
          (PrepareContainer4.entry ctx locales dryRun false w)).1
        env.home container locales (PrepareContainer4.entry ctx locales dryRun false w).ext =
        (.ok t, s1) →
      env.ConfigureFromTemplate
        (tr.Start (tr.Start ctx "prepare_container" w).1 "render_page"
          (PrepareContainer4.entry ctx locales dryRun false w)).1
        container t locales s1 = (.ok hp, s2) →
      (container.PageSlugs.FAQ = "" →
        (dryRun = true →
          (PrepareContainer4 env ctx container locales dryRun false w).1 =
            .ok ⟨Status.StatusDryRun⟩) ∧
        (dryRun = false → ∀ s,
          env.MarkReadyForUsage (tr.Start ctx "prepare_container" w).1 container [hp.ID]
            (PrepareContainer4.home env ctx container locales dryRun false w).2.ext =
            (none, s) →
          (PrepareContainer4 env ctx container locales dryRun false w).1 =
            .ok ⟨Status.StatusComplete⟩)) ∧
      (container.PageSlugs.FAQ ≠ "" → ∀ t' s3 fp s4,
        env.FetchAndFillTemplate
          (tr.Start (tr.Start ctx "prepare_container" w).1 "render_page"
            (tracing.Bool (tr.Start ctx "prepare_container" w).2.1 "has_faq" true
              (PrepareContainer4.home env ctx container locales dryRun false w).2)).1
          env.faq container locales
          (PrepareContainer4.home env ctx container locales dryRun false w).2.ext =
          (.ok t', s3) →
        env.ConfigureFromTemplate
          (tr.Start (tr.Start ctx "prepare_container" w).1 "render_page"
            (tracing.Bool (tr.Start ctx "prepare_container" w).2.1 "has_faq" true
              (PrepareContainer4.home env ctx container locales dryRun false w).2)).1
          container t' locales s3 = (.ok fp, s4) →
        (dryRun = true →
          (PrepareContainer4 env ctx container locales dryRun false w).1 =
            .ok ⟨Status.StatusDryRun⟩) ∧
        (dryRun = false → ∀ s,
          env.MarkReadyForUsage (tr.Start ctx "prepare_container" w).1 container
            [hp.ID, fp.ID]
            (PrepareContainer4.faq env ctx container locales dryRun false w).2.ext =
            (none, s) →
          (PrepareContainer4 env ctx container locales dryRun false w).1 =
            .ok ⟨Status.StatusComplete⟩))) := by
  refine ⟨?_, ?_, ?_, ?_⟩
  · intro t s1 page s2 hF hC hl
    have hF' : env.FetchAndFillTemplate ⟨some w.spans.length⟩ source container locales w.ext =
      (.ok t, s1) := hF
    have hC' : env.ConfigureFromTemplate ⟨some w.spans.length⟩ container t locales s1 =
      (.ok page, s2) := hC
    have hne : ¬ page.Locales.length = locales.length := by omega
    simp [RenderPage2, RenderPage2.body, tr.Start, FetchAndFillTemplate,
      ConfigureFromTemplate, logger.Info, logger.Warn, Span.End, hF', hC', hne]
  · intro hr t s1 page s2 hF hC hl
    have hF' : env.FetchAndFillTemplate ⟨some w.spans.length⟩ source container locales w.ext =
      (.ok t, s1) := hF
    have hC' : env.ConfigureFromTemplate ⟨some w.spans.length⟩ container t locales s1 =
      (.ok page, s2) := hC
    have hne : ¬ page.Locales.length = locales.length := by omega
    simp [RenderPage4, RenderPage4.body, tr.Start, FetchAndFillTemplate,
      ConfigureFromTemplate, tracing.String, tracing.Bool, tracing.StringSlice,
      RecordAttribute, Span.End, hF', hC', hne, hr, updateSpan_length_append, SpanRecord.close,
      SpanRecord.put, putAttr]
  · intro t s1 hp s2 hF hC
    have hh := RenderPage2_ok_of_steps env (tr.Start ctx "prepare_container" w).1 env.home
      container locales (tr.Start ctx "prepare_container" w).2.2 t s1 hp s2 hF hC
    obtain ⟨g1, g2⟩ := PrepareContainer2_body_goes_on env (tr.Start ctx "prepare_container" w).1
      (tr.Start ctx "prepare_container" w).2.1 container locales dryRun false
      (tr.Start ctx "prepare_container" w).2.2 hp hh
    exact ⟨g1, fun hq t' s3 fp s4 hF2 hC2 => g2 hq fp
      (RenderPage2_ok_of_steps env (tr.Start ctx "prepare_container" w).1 env.faq container
        locales (PrepareContainer2.home env ctx container locales false w).2 t' s3 fp s4
        hF2 hC2)⟩
  · intro hr t s1 hp s2 hF hC
    have hh := RenderPage4_ok_of_steps env hr (tr.Start ctx "prepare_container" w).1 env.home
      container locales false (PrepareContainer4.entry ctx locales dryRun false w) t s1 hp s2
      hF hC
    obtain ⟨g1, g2⟩ := PrepareContainer4_render_goes_on env
      (tr.Start ctx "prepare_container" w).1 (tr.Start ctx "prepare_container" w).2.1 container
      locales dryRun false (PrepareContainer4.entry ctx locales dryRun false w) hp hh
    exact ⟨g1, fun hq t' s3 fp s4 hF2 hC2 => g2 hq fp
      (RenderPage4_ok_of_steps env hr (tr.Start ctx "prepare_container" w).1 env.faq container
        locales false
        (tracing.Bool (tr.Start ctx "prepare_container" w).2.1 "has_faq" true
          (PrepareContainer4.home env ctx container locales dryRun false w).2) t' s3 fp s4
        hF2 hC2)⟩

/-- C6 as amended, at concrete runs of the scenario, `["en", "fr"]` requested, `["en"]`
rendered, nothing mandatory: `RenderPage` returns the page and logs the warning;
`PrepareContainer` completes when there is no dry run and `MarkReadyForUsage` succeeds, and
returns `StatusDryRun` on a dry run even with a `MarkReadyForUsage` that would fail. -/
theorem C6_incomplete_rendering_is_recorded_and_tolerated_witness :
    ((RenderPage2 (sampleEnv false ["en"]) rootContext ⟨"home"⟩ faqContainer ["en", "fr"] false
        emptyState).1 = .ok ⟨"home", ["en"]⟩ ∧
      (RenderPage2 (sampleEnv false ["en"]) rootContext ⟨"home"⟩ faqContainer ["en", "fr"] false
        emptyState).2.logs =
        emptyState.logs ++ [⟨Level.info, fillingMessage "home", []⟩,
          ⟨Level.warn, failedMessage "home",
            [("locales", .strs ["en", "fr"]), ("pages", .strs ["en"])]⟩]) ∧
    (PrepareContainer2 (sampleEnv false ["en"]) rootContext faqContainer ["en", "fr"] false
        false emptyState).1 = .ok ⟨Status.StatusComplete⟩ ∧
    (PrepareContainer4 (sampleEnv false ["en"]) rootContext faqContainer ["en", "fr"] false
        false emptyState).1 = .ok ⟨Status.StatusComplete⟩ ∧
    (PrepareContainer2 (markFailingEnv ["en"]) rootContext faqContainer ["en", "fr"] true
        false emptyState).1 = .ok ⟨Status.StatusDryRun⟩ ∧
    (PrepareContainer4 (markFailingEnv ["en"]) rootContext faqContainer ["en", "fr"] true
        false emptyState).1 = .ok ⟨Status.StatusDryRun⟩ :=
  ⟨(C6_incomplete_rendering_is_recorded_and_tolerated (sampleEnv false ["en"]) rootContext
      ⟨"home"⟩ faqContainer ["en", "fr"] false emptyState).1 ⟨"home"⟩ 1 ⟨"home", ["en"]⟩ 2
      rfl rfl (by decide),
    (((C6_incomplete_rendering_is_recorded_and_tolerated (sampleEnv false ["en"]) rootContext
      ⟨"home"⟩ faqContainer ["en", "fr"] false emptyState).2.2.1 ⟨"home"⟩ 1 ⟨"home", ["en"]⟩ 2
      rfl rfl).2 (by decide) ⟨"faq"⟩ 3 ⟨"faq", ["en"]⟩ 4 rfl rfl).2 rfl 5 rfl,
    (((C6_incomplete_rendering_is_recorded_and_tolerated (sampleEnv false ["en"]) rootContext
      ⟨"home"⟩ faqContainer ["en", "fr"] false emptyState).2.2.2 rfl ⟨"home"⟩ 1
      ⟨"home", ["en"]⟩ 2 rfl rfl).2 (by decide) ⟨"faq"⟩ 3 ⟨"faq", ["en"]⟩ 4 rfl rfl).2 rfl 5 rfl,
    (((C6_incomplete_rendering_is_recorded_and_tolerated (markFailingEnv ["en"]) rootContext
      ⟨"home"⟩ faqContainer ["en", "fr"] true emptyState).2.2.1 ⟨"home"⟩ 1 ⟨"home", ["en"]⟩ 2
      rfl rfl).2 (by decide) ⟨"faq"⟩ 3 ⟨"faq", ["en"]⟩ 4 rfl rfl).1 rfl,
    (((C6_incomplete_rendering_is_recorded_and_tolerated (markFailingEnv ["en"]) rootContext
      ⟨"home"⟩ faqContainer ["en", "fr"] true emptyState).2.2.2 rfl ⟨"home"⟩ 1
      ⟨"home", ["en"]⟩ 2 rfl rfl).2 (by decide) ⟨"faq"⟩ 3 ⟨"faq", ["en"]⟩ 4 rfl rfl).1 rfl⟩

/-- C7 does not hold as stated: in `example-api-2.go`, with an FAQ slug, `dryRun = true` and
both pages rendered, `PrepareContainer` returns `StatusDryRun`, but its span carries no
attribute at all and nothing recorded in the run lists the template IDs `["home", "faq"]`. -/
theorem C7_api2_dry_run_records_no_template_ids :
    (PrepareContainer2.home (sampleEnv false ["en"]) rootContext faqContainer ["en"] false
        emptyState).1 = .ok ⟨"home", ["en"]⟩ ∧
    (PrepareContainer2.faq (sampleEnv false ["en"]) rootContext faqContainer ["en"] false
        emptyState).1 = .ok ⟨"faq", ["en"]⟩ ∧
    (PrepareContainer2 (sampleEnv false ["en"]) rootContext faqContainer ["en"] true false
        emptyState).1 = .ok ⟨Status.StatusDryRun⟩ ∧
    (PrepareContainer2 (sampleEnv false ["en"]) rootContext faqContainer ["en"] true false
        emptyState).2.spans =
      [⟨"prepare_container", none, [], SpanStatus.ok, 1⟩,
       ⟨"render_page", some 0, [], SpanStatus.ok, 1⟩,
       ⟨"render_page", some 0, [], SpanStatus.ok, 1⟩] ∧
    Value.strs ["home", "faq"] ∉
      recordedValues (PrepareContainer2 (sampleEnv false ["en"]) rootContext faqContainer ["en"]
        true false emptyState).2 :=
  ⟨rfl, rfl, rfl, rfl, by decide⟩

/-- C7 as amended: for a container with a non-empty FAQ slug and `dryRun = true`, when the
home page's and the FAQ page's `RenderPage` succeed, `PrepareContainer` of `example-api-4.go`
returns `StatusDryRun`, calls `MarkReadyForUsage` not at all and leaves on its
`prepare_container` span the attribute `template_ids = [homePage.ID, faqPage.ID]`;
`PrepareContainer` of `example-api-2.go` returns `StatusDryRun` and calls `MarkReadyForUsage`
not at all. -/
theorem C7_dry_run_records_template_ids_and_stops {σ : Type} (env : Env σ) (ctx : Context)
    (container : ContainerContext) (locales : List String) (allLocalesRequired : Bool)
    (w : State σ) (hq : container.PageSlugs.FAQ ≠ "") :
    (∀ hp fp,
      (PrepareContainer4.home env ctx container locales true allLocalesRequired w).1 = .ok hp →
      (PrepareContainer4.faq env ctx container locales true allLocalesRequired w).1 = .ok fp →
      (PrepareContainer4 env ctx container locales true allLocalesRequired w).1 =
        .ok ⟨Status.StatusDryRun⟩ ∧
      markCalls (PrepareContainer4 env ctx container locales true allLocalesRequired w).2.calls =
        markCalls w.calls ∧
      ∃ p rest,
        (PrepareContainer4 env ctx container locales true allLocalesRequired w).2.spans =
          w.spans ++ p :: rest ∧ p.name = "prepare_container" ∧
        p.attr "template_ids" = some (.strs [hp.ID, fp.ID])) ∧
    (∀ hp fp,
      (PrepareContainer2.home env ctx container locales allLocalesRequired w).1 = .ok hp →
      (PrepareContainer2.faq env ctx container locales allLocalesRequired w).1 = .ok fp →
      (PrepareContainer2 env ctx container locales true allLocalesRequired w).1 =
        .ok ⟨Status.StatusDryRun⟩ ∧
      markCalls (PrepareContainer2 env ctx container locales true allLocalesRequired w).2.calls =
        markCalls w.calls) := by
  refine ⟨?_, ?_⟩
  · intro hp fp hh hf
    refine ⟨?_, ?_, ?_⟩
    · exact congrArg Prod.fst (PrepareContainer4_render_dry env
        (tr.Start ctx "prepare_container" w).1 (tr.Start ctx "prepare_container" w).2.1
        container locales allLocalesRequired _ hp fp hh hq hf)
    · rw [PrepareContainer4_marks, hh]
      simp [hq, hf]
    · obtain ⟨rest, hr⟩ := PrepareContainer4_dry_spans env ctx container locales
        allLocalesRequired w hp fp hh hq hf
      exact ⟨_, rest, hr, rfl, by simp [SpanRecord.attr, List.lookup]⟩
  · intro hp fp hh hf
    refine ⟨?_, ?_⟩
    · exact congrArg Prod.fst (PrepareContainer2_body_dry env
        (tr.Start ctx "prepare_container" w).1 (tr.Start ctx "prepare_container" w).2.1
        container locales allLocalesRequired _ hp fp hh hq hf)
    · rw [PrepareContainer2_marks, hh]
      simp [hq, hf]

/-- C7 as amended, at a concrete run with an FAQ page and `dryRun = true`. -/
theorem C7_dry_run_records_template_ids_and_stops_witness :
    faqContainer.PageSlugs.FAQ ≠ "" ∧
    ((PrepareContainer4 (sampleEnv false ["en"]) rootContext faqContainer ["en"] true false
        emptyState).1 = .ok ⟨Status.StatusDryRun⟩ ∧
      markCalls (PrepareContainer4 (sampleEnv false ["en"]) rootContext faqContainer ["en"] true
        false emptyState).2.calls = markCalls emptyState.calls ∧
      ∃ p rest,
        (PrepareContainer4 (sampleEnv false ["en"]) rootContext faqContainer ["en"] true false
          emptyState).2.spans = emptyState.spans ++ p :: rest ∧ p.name = "prepare_container" ∧
        p.attr "template_ids" = some (.strs ["home", "faq"])) ∧
    ((PrepareContainer2 (sampleEnv false ["en"]) rootContext faqContainer ["en"] true false
        emptyState).1 = .ok ⟨Status.StatusDryRun⟩ ∧
      markCalls (PrepareContainer2 (sampleEnv false ["en"]) rootContext faqContainer ["en"] true
        false emptyState).2.calls = markCalls emptyState.calls) :=
  ⟨by decide,
    (C7_dry_run_records_template_ids_and_stops (sampleEnv false ["en"]) rootContext faqContainer
      ["en"] false emptyState (by decide)).1 ⟨"home", ["en"]⟩ ⟨"faq", ["en"]⟩ rfl rfl,
    (C7_dry_run_records_template_ids_and_stops (sampleEnv false ["en"]) rootContext faqContainer
      ["en"] false emptyState (by decide)).2 ⟨"home", ["en"]⟩ ⟨"faq", ["en"]⟩ rfl rfl⟩

/-- C8 on the code: `RenderPage` of `example-api-4.go` tests `required`, not its parameter
`allLocalesRequired`. With `["en", "fr"]` requested and `["en"]` rendered: when
`allLocalesRequired` is true and `required` false, `example-api-0.go` fails where
`example-api-4.go` returns the page and `PrepareContainer` completes; when
`allLocalesRequired` is false and `required` true, `example-api-0.go` returns the page where
`example-api-4.go` fails. -/
theorem C8_api4_render_tests_required_not_its_parameter :
    (RenderPage0 (sampleEnv false ["en"]) rootContext ⟨"home"⟩ faqContainer ["en", "fr"] true
        emptyState).1 = .error ⟨"Failed to render home page template for some locales"⟩ ∧
    (RenderPage4 (sampleEnv false ["en"]) rootContext ⟨"home"⟩ faqContainer ["en", "fr"] true
        emptyState).1 = .ok ⟨"home", ["en"]⟩ ∧
    (PrepareContainer0 (sampleEnv false ["en"]) rootContext faqContainer ["en", "fr"] false true
        emptyState).1 = .error ⟨"Failed to render home page template for some locales"⟩ ∧
    (PrepareContainer4 (sampleEnv false ["en"]) rootContext faqContainer ["en", "fr"] false true
        emptyState).1 = .ok ⟨Status.StatusComplete⟩ ∧
    (RenderPage0 (sampleEnv true ["en"]) rootContext ⟨"home"⟩ faqContainer ["en", "fr"] false
        emptyState).1 = .ok ⟨"home", ["en"]⟩ ∧
    (RenderPage4 (sampleEnv true ["en"]) rootContext ⟨"home"⟩ faqContainer ["en", "fr"] false
        emptyState).1 = .error ⟨"Failed to render home page template for some locales"⟩ :=
  ⟨rfl, rfl, rfl, rfl, rfl, rfl⟩

/-- C9: in each of the three variants the calls `PrepareContainer` makes to
`MarkReadyForUsage` are: none when the home page's `RenderPage` fails, or the FAQ slug is
non-empty and the FAQ page's `RenderPage` fails, or `dryRun` is set; otherwise exactly one,
with `[homePage.ID]` when the FAQ slug is empty and `[homePage.ID, faqPage.ID]` when it is not.
The call log as a whole ends with the home page's calls when that rendering fails, so the FAQ
page is rendered only in the state a successful home page rendering left. At most one call to
`MarkReadyForUsage` is added in any run. -/
theorem C9_mark_ready_called_once_when_due {σ : Type} (env : Env σ) (ctx : Context)
    (container : ContainerContext) (locales : List String) (dryRun allLocalesRequired : Bool)
    (w : State σ) :
    (markCalls (PrepareContainer0 env ctx container locales dryRun allLocalesRequired w).2.calls =
      markCalls w.calls ++
      match (PrepareContainer0.home env ctx container locales allLocalesRequired w).1 with
      | .error _ => []
      | .ok homePage =>
        if container.PageSlugs.FAQ = "" then
          (if dryRun then [] else [[homePage.ID]])
        else
          match (PrepareContainer0.faq env ctx container locales allLocalesRequired w).1 with
          | .error _ => []
          | .ok faqPage => if dryRun then [] else [[homePage.ID, faqPage.ID]]) ∧
    (markCalls (PrepareContainer2 env ctx container locales dryRun allLocalesRequired w).2.calls =
      markCalls w.calls ++
      match (PrepareContainer2.home env ctx container locales allLocalesRequired w).1 with
      | .error _ => []
      | .ok homePage =>
        if container.PageSlugs.FAQ = "" then
          (if dryRun then [] else [[homePage.ID]])
        else
          match (PrepareContainer2.faq env ctx container locales allLocalesRequired w).1 with
          | .error _ => []
          | .ok faqPage => if dryRun then [] else [[homePage.ID, faqPage.ID]]) ∧
    (markCalls (PrepareContainer4 env ctx container locales dryRun allLocalesRequired w).2.calls =
      markCalls w.calls ++
      match (PrepareContainer4.home env ctx container locales dryRun allLocalesRequired w).1 with
      | .error _ => []
      | .ok homePage =>
        if container.PageSlugs.FAQ = "" then
          (if dryRun then [] else [[homePage.ID]])
        else
          match (PrepareContainer4.faq env ctx container locales dryRun
              allLocalesRequired w).1 with
          | .error _ => []
          | .ok faqPage => if dryRun then [] else [[homePage.ID, faqPage.ID]]) ∧
    ((PrepareContainer0 env ctx container locales dryRun allLocalesRequired w).2.calls =
      match (PrepareContainer0.home env ctx container locales allLocalesRequired w).1 with
      | .error _ => (PrepareContainer0.home env ctx container locales allLocalesRequired w).2.calls
      | .ok homePage =>
        if container.PageSlugs.FAQ = "" then
          (PrepareContainer0.home env ctx container locales allLocalesRequired w).2.calls ++
            (if dryRun then [] else [Call.MarkReadyForUsage ctx container [homePage.ID]])
        else
          match (PrepareContainer0.faq env ctx container locales allLocalesRequired w).1 with
          | .error _ =>
            (PrepareContainer0.faq env ctx container locales allLocalesRequired w).2.calls
          | .ok faqPage =>
            (PrepareContainer0.faq env ctx container locales allLocalesRequired w).2.calls ++
              (if dryRun then []
               else [Call.MarkReadyForUsage ctx container [homePage.ID, faqPage.ID]])) ∧
    ((PrepareContainer2 env ctx container locales dryRun allLocalesRequired w).2.calls =
      match (PrepareContainer2.home env ctx container locales allLocalesRequired w).1 with
      | .error _ => (PrepareContainer2.home env ctx container locales allLocalesRequired w).2.calls
      | .ok homePage =>
        if container.PageSlugs.FAQ = "" then
          (PrepareContainer2.home env ctx container locales allLocalesRequired w).2.calls ++
            (if dryRun then []
             else [Call.MarkReadyForUsage (tr.Start ctx "prepare_container" w).1 container
               [homePage.ID]])
        else
          match (PrepareContainer2.faq env ctx container locales allLocalesRequired w).1 with
          | .error _ =>
            (PrepareContainer2.faq env ctx container locales allLocalesRequired w).2.calls
          | .ok faqPage =>
            (PrepareContainer2.faq env ctx container locales allLocalesRequired w).2.calls ++
              (if dryRun then []
               else [Call.MarkReadyForUsage (tr.Start ctx "prepare_container" w).1 container
                 [homePage.ID, faqPage.ID]])) ∧
    ((PrepareContainer4 env ctx container locales dryRun allLocalesRequired w).2.calls =
      match (PrepareContainer4.home env ctx container locales dryRun allLocalesRequired w).1 with
      | .error _ =>
        (PrepareContainer4.home env ctx container locales dryRun allLocalesRequired w).2.calls
      | .ok homePage =>
        if container.PageSlugs.FAQ = "" then
          (PrepareContainer4.home env ctx container locales dryRun allLocalesRequired w).2.calls ++
            (if dryRun then []
             else [Call.MarkReadyForUsage (tr.Start ctx "prepare_container" w).1 container
               [homePage.ID]])
        else
          match (PrepareContainer4.faq env ctx container locales dryRun
              allLocalesRequired w).1 with
          | .error _ =>
            (PrepareContainer4.faq env ctx container locales dryRun allLocalesRequired w).2.calls
          | .ok faqPage =>
            (PrepareContainer4.faq env ctx container locales dryRun allLocalesRequired w).2.calls ++
              (if dryRun then []
               else [Call.MarkReadyForUsage (tr.Start ctx "prepare_container" w).1 container
                 [homePage.ID, faqPage.ID]])) ∧
    (markCalls (PrepareContainer0 env ctx container locales dryRun
        allLocalesRequired w).2.calls).length ≤ (markCalls w.calls).length + 1 ∧
    (markCalls (PrepareContainer2 env ctx container locales dryRun
        allLocalesRequired w).2.calls).length ≤ (markCalls w.calls).length + 1 ∧
    (markCalls (PrepareContainer4 env ctx container locales dryRun
        allLocalesRequired w).2.calls).length ≤ (markCalls w.calls).length + 1 :=
  ⟨PrepareContainer0_marks env ctx container locales dryRun allLocalesRequired w,
    PrepareContainer2_marks env ctx container locales dryRun allLocalesRequired w,
    PrepareContainer4_marks env ctx container locales dryRun allLocalesRequired w,
    PrepareContainer0_calls env ctx container locales dryRun allLocalesRequired w,
    PrepareContainer2_calls env ctx container locales dryRun allLocalesRequired w,
    PrepareContainer4_calls env ctx container locales dryRun allLocalesRequired w,
    PrepareContainer0_marks_le env ctx container locales dryRun allLocalesRequired w,
    PrepareContainer2_marks_le env ctx container locales dryRun allLocalesRequired w,
    PrepareContainer4_marks_le env ctx container locales dryRun allLocalesRequired w⟩

/-- C10: `RenderPage` compares the number of rendered locales with the number of requested
ones and nothing else. When `FetchAndFillTemplate` and `ConfigureFromTemplate` succeed and the
page has as many locales as were requested, every variant returns the page whatever
`allLocalesRequired` is, and records no warning and no failure (the whole result and final
state are given). When the page has more locales than requested, it is handled as an
incomplete rendering: `example-api-0.go` and `example-api-2.go` fail if `allLocalesRequired`
and otherwise log the warning; `example-api-4.go` records `all_locales_rendered = false` and
fails if `required`. -/
theorem C10_completeness_is_judged_by_count {σ : Type} (env : Env σ) (ctx : Context)
    (source : Source) (container : ContainerContext) (locales : List String)
    (allLocalesRequired : Bool) (w : State σ) :
    (∀ t s1 page s2,
      env.FetchAndFillTemplate ctx source container locales w.ext = (.ok t, s1) →
      env.ConfigureFromTemplate ctx container t locales s1 = (.ok page, s2) →
      (page.Locales.length = locales.length →
        RenderPage0 env ctx source container locales allLocalesRequired w =
          (.ok page,
            ⟨s2, w.spans,
              w.calls ++ [Call.FetchAndFillTemplate ctx source container locales,
                Call.ConfigureFromTemplate ctx container t locales],
              w.logs ++ [⟨Level.info, fillingMessage source.Name, []⟩]⟩)) ∧
      (locales.length < page.Locales.length →
        (RenderPage0 env ctx source container locales allLocalesRequired w).1 =
          (if allLocalesRequired then .error (fmt.Errorf (failedMessage source.Name))
           else .ok page) ∧
        (allLocalesRequired = false →
          (RenderPage0 env ctx source container locales allLocalesRequired w).2.logs =
            w.logs ++ [⟨Level.info, fillingMessage source.Name, []⟩,
              ⟨Level.warn, failedMessage source.Name,
                [("locales", .strs locales), ("pages", .strs page.Locales)]⟩]))) ∧
    (∀ t s1 page s2,
      env.FetchAndFillTemplate (tr.Start ctx "render_page" w).1 source container locales w.ext =
        (.ok t, s1) →
      env.ConfigureFromTemplate (tr.Start ctx "render_page" w).1 container t locales s1 =
        (.ok page, s2) →
      (page.Locales.length = locales.length →
        RenderPage2 env ctx source container locales allLocalesRequired w =
          (.ok page,
            ⟨s2, w.spans ++ [⟨"render_page", ctx.span, [], SpanStatus.ok, 1⟩],
              w.calls ++ [Call.FetchAndFillTemplate (tr.Start ctx "render_page" w).1 source
                  container locales,
                Call.ConfigureFromTemplate (tr.Start ctx "render_page" w).1 container t locales],
              w.logs ++ [⟨Level.info, fillingMessage source.Name, []⟩]⟩)) ∧
      (locales.length < page.Locales.length →
        (RenderPage2 env ctx source container locales allLocalesRequired w).1 =
          (if allLocalesRequired then .error (tracing.Errorf (failedMessage source.Name))
           else .ok page) ∧
        (allLocalesRequired = false →
          (RenderPage2 env ctx source container locales allLocalesRequired w).2.logs =
            w.logs ++ [⟨Level.info, fillingMessage source.Name, []⟩,
              ⟨Level.warn, failedMessage source.Name,
                [("locales", .strs locales), ("pages", .strs page.Locales)]⟩]))) ∧
    (∀ t s1 page s2,
      env.FetchAndFillTemplate (tr.Start ctx "render_page" w).1 source container locales w.ext =
        (.ok t, s1) →
      env.ConfigureFromTemplate (tr.Start ctx "render_page" w).1 container t locales s1 =
        (.ok page, s2) →
      (page.Locales.length = locales.length →
        RenderPage4 env ctx source container locales allLocalesRequired w =
          (.ok page,
            ⟨s2,
              w.spans ++ [⟨"render_page", ctx.span,
                [("source_name", .str source.Name), ("all_locales_rendered", .bool true),
                 ("locales_rendered", .strs page.Locales)], SpanStatus.ok, 1⟩],
              w.calls ++ [Call.FetchAndFillTemplate (tr.Start ctx "render_page" w).1 source
                  container locales,
                Call.ConfigureFromTemplate (tr.Start ctx "render_page" w).1 container t locales],
              w.logs⟩)) ∧
      (locales.length < page.Locales.length →
        (RenderPage4 env ctx source container locales allLocalesRequired w).1 =
          (if env.required then .error (tracing.Errorf (failedMessage source.Name))
           else .ok page) ∧
        (RenderPage4 env ctx source container locales allLocalesRequired w).2.spans =
          w.spans ++ [⟨"render_page", ctx.span,
            [("source_name", .str source.Name), ("all_locales_rendered", .bool false),
             ("locales_rendered", .strs page.Locales)], SpanStatus.ok, 1⟩])) := by
  refine ⟨?_, ?_, ?_⟩
  · intro t s1 page s2 hF hC
    refine ⟨?_, ?_⟩
    · intro hl
      simp [RenderPage0, FetchAndFillTemplate, ConfigureFromTemplate, logger.Info, hF, hC, hl]
    · intro hl
      have hne : ¬ page.Locales.length = locales.length := by omega
      cases allLocalesRequired <;>
      simp [RenderPage0, FetchAndFillTemplate, ConfigureFromTemplate, logger.Info, logger.Warn,
        hF, hC, hne]
  · intro t s1 page s2 hF hC
    have hF' : env.FetchAndFillTemplate ⟨some w.spans.length⟩ source container locales w.ext =
      (.ok t, s1) := hF
    have hC' : env.ConfigureFromTemplate ⟨some w.spans.length⟩ container t locales s1 =
      (.ok page, s2) := hC
    refine ⟨?_, ?_⟩
    · intro hl
      simp [RenderPage2, RenderPage2.body, tr.Start, FetchAndFillTemplate,
        ConfigureFromTemplate, logger.Info, Span.End, hF', hC', hl, updateSpan_length_append,
        SpanRecord.close]
    · intro hl
      have hne : ¬ page.Locales.length = locales.length := by omega
      cases allLocalesRequired <;>
      simp [RenderPage2, RenderPage2.body, tr.Start, FetchAndFillTemplate,
        ConfigureFromTemplate, logger.Info, logger.Warn, Span.End, hF', hC', hne]
  · intro t s1 page s2 hF hC
    have hF' : env.FetchAndFillTemplate ⟨some w.spans.length⟩ source container locales w.ext =
      (.ok t, s1) := hF
    have hC' : env.ConfigureFromTemplate ⟨some w.spans.length⟩ container t locales s1 =
      (.ok page, s2) := hC
    refine ⟨?_, ?_⟩
    · intro hl
      simp [RenderPage4, RenderPage4.body, tr.Start, FetchAndFillTemplate,
        ConfigureFromTemplate, tracing.String, tracing.Bool, tracing.StringSlice,
        RecordAttribute, Span.End, hF', hC', hl, updateSpan_length_append, SpanRecord.close,
        SpanRecord.put, putAttr]
    · intro hl
      have hne : ¬ page.Locales.length = locales.length := by omega
      cases hr : env.required <;>
      simp [RenderPage4, RenderPage4.body, tr.Start, FetchAndFillTemplate,
        ConfigureFromTemplate, tracing.String, tracing.Bool, tracing.StringSlice,
        RecordAttribute, Span.End, hF', hC', hne, hr, updateSpan_length_append, SpanRecord.close,
        SpanRecord.put, putAttr]

/-- C10 at a concrete run: `["en", "fr"]` requested, `["en", "de"]` rendered, all locales
mandatory (parameter and `required` alike): every variant returns the page. -/
theorem C10_completeness_is_judged_by_count_witness :
    (RenderPage0 (sampleEnv true ["en", "de"]) rootContext ⟨"home"⟩ faqContainer ["en", "fr"]
        true emptyState).1 = .ok ⟨"home", ["en", "de"]⟩ ∧
    (RenderPage2 (sampleEnv true ["en", "de"]) rootContext ⟨"home"⟩ faqContainer ["en", "fr"]
        true emptyState).1 = .ok ⟨"home", ["en", "de"]⟩ ∧
    (RenderPage4 (sampleEnv true ["en", "de"]) rootContext ⟨"home"⟩ faqContainer ["en", "fr"]
        true emptyState).1 = .ok ⟨"home", ["en", "de"]⟩ :=
  ⟨congrArg Prod.fst
      (((C10_completeness_is_judged_by_count (sampleEnv true ["en", "de"]) rootContext ⟨"home"⟩
        faqContainer ["en", "fr"] true emptyState).1 ⟨"home"⟩ 1 ⟨"home", ["en", "de"]⟩ 2
          rfl rfl).1 rfl),
    congrArg Prod.fst
      (((C10_completeness_is_judged_by_count (sampleEnv true ["en", "de"]) rootContext ⟨"home"⟩
        faqContainer ["en", "fr"] true emptyState).2.1 ⟨"home"⟩ 1 ⟨"home", ["en", "de"]⟩ 2
          rfl rfl).1 rfl),
    congrArg Prod.fst
      (((C10_completeness_is_judged_by_count (sampleEnv true ["en", "de"]) rootContext ⟨"home"⟩
        faqContainer ["en", "fr"] true emptyState).2.2 ⟨"home"⟩ 1 ⟨"home", ["en", "de"]⟩ 2
          rfl rfl).1 rfl)⟩

end TracingIsBetter
